import Mathlib

/-!
# Verification of the defi-apy-bot aggregation and token-resolution core

Shallow embedding of the pool-aggregation / token-symbol-resolution core of
the `defi-apy-bot` repository, together with proofs and refutations of the
specification claims about it.

Conventions of the embedding:
* Python `str` is modelled by Lean `String`; the Python string operations
  used by the source (`lower`, `upper`, `strip`, `split`, `replace`, slicing,
  `in`, `startswith`, `endswith`) are modelled by the `py*` helpers below,
  which operate on the underlying `List Char` (all identifiers handled by the
  program are ASCII, where the Python and Lean case maps agree).
* Python `float` amounts (TVL, volume, APRs) are modelled by `ℚ` (exact
  arithmetic); Python `int` by `Int`/`Nat`.
* Python dictionaries carrying pool data are modelled by structures whose
  fields are the keys the source actually reads.
* `async` functions performing one upstream HTTP call are modelled as pure
  functions taking the outcome of that call (`Except Unit …`) as an argument,
  and returning, besides their value, the new cache state and whether the
  upstream request was issued.
* Process-global mutable state (the unknown-token log set, the per-instance
  cache) is threaded explicitly.
-/

namespace DefiApyBot

/-! ## Python string primitives -/

/-- Python `s.lower()` (ASCII). -/
def pyLower (s : String) : String := ⟨s.data.map Char.toLower⟩

/-- Python `s.upper()` (ASCII). -/
def pyUpper (s : String) : String := ⟨s.data.map Char.toUpper⟩

/-- Python `s.strip()`: remove leading and trailing whitespace. -/
def pyStrip (s : String) : String :=
  ⟨((s.data.dropWhile Char.isWhitespace).reverse.dropWhile Char.isWhitespace).reverse⟩

/-- Python `s[:n]` for `n ≥ 0`. -/
def pyTake (s : String) (n : Nat) : String := ⟨s.data.take n⟩

/-- Python `s.endswith(suf)` / a `re.search` of a literal pattern anchored with `$`. -/
def pyEndsWith (s suf : String) : Bool := suf.data.isSuffixOf s.data

/-- Python `s.startswith(pre)`. -/
def pyStartsWith (s pre : String) : Bool := pre.data.isPrefixOf s.data

/-- Python `sub in s` (substring containment). -/
def pyContains (s sub : String) : Bool := decide (sub.data <:+: s.data)

/-- Python `s.replace(a, b)` for single characters `a`, `b`. -/
def pyReplaceChar (s : String) (a b : Char) : String :=
  ⟨s.data.map fun c => if c = a then b else c⟩

/-- Python `s.capitalize()`: first character upper-cased, the rest lower-cased. -/
def pyCapitalize (s : String) : String :=
  match s.data with
  | [] => ""
  | c :: rest => ⟨Char.toUpper c :: rest.map Char.toLower⟩

/-- Python `s.split(sep)` for a single-character separator `sep`
(`"".split(sep) = [""]`, empty chunks kept). -/
def splitOnSep (sep : Char) : List Char → List (List Char)
  | [] => [[]]
  | c :: rest =>
    let r := splitOnSep sep rest
    if c = sep then [] :: r
    else
      match r with
      | [] => [[c]]
      | h :: t => (c :: h) :: t

/-- Python `s.split(sep)` for a one-character separator, on `String`. -/
def pySplitChar (sep : Char) (s : String) : List String :=
  (splitOnSep sep s.data).map fun l => ⟨l⟩

/-- Python `s.split('::')` (left-to-right, non-overlapping). -/
def splitCC : List Char → List (List Char)
  | [] => [[]]
  | ':' :: ':' :: rest => [] :: splitCC rest
  | c :: rest =>
    match splitCC rest with
    | [] => [[c]]
    | h :: t => (c :: h) :: t

/-- Python `s.split('::')` on `String`. -/
def pySplitCC (s : String) : List String := (splitCC s.data).map fun l => ⟨l⟩

/-- Python `s.replace('Coin', '')` (left-to-right, non-overlapping removal). -/
def removeCoin : List Char → List Char
  | 'C' :: 'o' :: 'i' :: 'n' :: rest => removeCoin rest
  | c :: rest => c :: removeCoin rest
  | [] => []

/-- Python `max(iterable, default=d)`. -/
def pyMaxD (l : List ℚ) (d : ℚ) : ℚ :=
  match l with
  | [] => d
  | h :: t => t.foldl max h


end DefiApyBot

namespace DefiApyBot.BotTokenRegistry

/-!
## `src/bot/utils/token_registry.py`

The token resolver actually used by the adapters
(`HyperionAPI._get_token_symbol` imports `get_token_symbol` from here).
-/

/-- The process-global `_logged_unknown_tokens` set (order of insertion kept). -/
structure TRState where
  logged : List String
deriving DecidableEq

/-- `TOKEN_PATTERNS`: each source entry is a regex of literal characters
anchored with a trailing `$` and searched with `re.IGNORECASE`; such a search
succeeds exactly when the pattern body is a case-insensitive suffix of the
identifier.  Entries are stored here as `(pattern body, symbol)`. -/
def TOKEN_PATTERNS : List (String × String) := [
  ("::aptos_coin::AptosCoin", "APT"),
  ("::asset::USDC", "USDC"),
  ("::asset::USDT", "USDT"),
  ("::asset::WETH", "WETH"),
  ("::asset::WBTC", "WBTC"),
  ("::asset::DAI", "DAI"),
  ("UsdcCoin", "USDC"),
  ("UsdtCoin", "USDT"),
  ("WethCoin", "WETH"),
  ("WbtcCoin", "WBTC"),
  ("AmnisApt", "amAPT"),
  ("StakedAptosCoin", "stAPT"),
  ("StakedAptos", "stAPT")]

/-- `re.search(pattern, s, re.IGNORECASE)` for a literal pattern anchored with `$`. -/
def re_search_ci (pat s : String) : Bool :=
  (pat.data.map Char.toLower).isSuffixOf (s.data.map Char.toLower)

/-- `TOKEN_REGISTRY`: the static seed registry (insertion order kept). -/
def TOKEN_REGISTRY : List (String × String) := [
  ("0x1::aptos_coin::AptosCoin", "APT"),
  ("0xf22bede237a07e121b56d91a491eb7bcdfd1f5907926a9e58338f964a01b17fa::asset::USDC", "USDC"),
  ("0xf22bede237a07e121b56d91a491eb7bcdfd1f5907926a9e58338f964a01b17fa::asset::USDT", "USDT"),
  ("0xf22bede237a07e121b56d91a491eb7bcdfd1f5907926a9e58338f964a01b17fa::asset::WETH", "WETH"),
  ("0xf22bede237a07e121b56d91a491eb7bcdfd1f5907926a9e58338f964a01b17fa::asset::WBTC", "WBTC"),
  ("0x111ae3e5bc816a5e63c2da97d0aa3886519e0cd5e4b046659fa35796bd11542a::amapt_token::AmnisApt", "amAPT"),
  ("0xa259be733b6a759909f92815927fa213904df6540519568692caf0b068fe8e62::amapt_token::AmnisApt", "amAPT"),
  ("0x84d7aeef42d38a5ffc3ccef853e1b82e4958659d16a7de736a29c55fbbeb0114::staked_aptos_coin::StakedAptosCoin", "stAPT"),
  ("0xd11107bdf0d6d7040c6c0bfbdecb6545191fdf13e8d8d259952f53e1713f61b5::staked_coin::StakedAptos", "stAPT"),
  ("0x5e156f1207d0ebfa19a9eeff00d62a282278fb8719f4fab3a586a0a2c0fffbea::coin::T", "USDC"),
  ("0x8d87a65ba30e09357fa2edea2c80dbac296e5dec2b18287113500b902942929d::celer_coin_manager::UsdcCoin", "ceUSDC"),
  ("0x000000000000000000000000000000000000000000000000000000000000000a", "APT"),
  ("0x0009da434d9b873b5159e8eeed70202ad22dc075867a7793234fbc981b63e119", "APT"),
  ("0xbae207659db88bea0cbead6da0ed00aac12edcdda169e591cd41c94180b46f3b", "USDC"),
  ("0x357b0b74bc833e95a115ad22604854d6b0fca151cecd94111770e5d6ffc9dc2b", "USDT"),
  ("0x377adc4848552eb2ea17259be928001923efe12271fef1667e2b784f04a7cf3a", "USDt"),
  ("0x81214a80d82035a190fcb76b6ff3c0145161c3a9f33d137f2bbaee4cfec8a387", "xBTC"),
  ("0x68844a0d7f2587e726ad0579f3d640865bb4162c08a4589eeda3f9689ec52a3d", "WBTC"),
  ("0xb30a694a344edee467d9f82330bbe7c3b89f440a1ecd2da1f3bca266560fce69", "sUSDe"),
  ("0x821c94e69bc7ca058c913b7b5e6b0a5c9fd1523d58723a966fb8c1f5ea888105", "kAPT"),
  ("0x05fabd1b12e39967a3c24e91b7b8f67719a6dacee74f3c8b9fb7d93e855437d2", "USD1")]

/-- `parse_token_symbol_from_address`: structural-heuristic parse of a Move
address (tier 3 of the resolver). -/
def parse_token_symbol_from_address (address : String) : String :=
  let address := pyStrip address
  let parts := splitCC address.data
  if 3 ≤ parts.length then
    let last_part : String := ⟨parts.getLastD []⟩
    if last_part = "AptosCoin" then "APT"
    else if pyEndsWith last_part "Coin" then pyUpper ⟨removeCoin last_part.data⟩
    else if pyContains (pyUpper last_part) "USDC" then "USDC"
    else if pyContains (pyUpper last_part) "USDT" then "USDT"
    else if pyContains (pyUpper last_part) "WETH" then "WETH"
    else if pyContains (pyUpper last_part) "WBTC" then "WBTC"
    else if last_part = "AmnisApt" then "amAPT"
    else if last_part = "StakedAptosCoin" then "stAPT"
    else if last_part = "StakedAptos" then "stAPT"
    else pyTake last_part 8
  else if pyStartsWith address "0x" then ⟨'0' :: 'x' :: (address.data.drop 2).take 6⟩
  else pyTake address 10

/-- `get_token_symbol`: registry lookup, then pattern match, then heuristic
parse.  Returns the symbol, the new logged-set state, and the number of
"Unknown token" log lines emitted by this call (0 or 1). -/
def get_token_symbol (st : TRState) (token_address : String) : String × TRState × Nat :=
  if token_address = "" then ("???", st, 0)
  else
    let normalized := pyStrip (pyLower token_address)
    match TOKEN_REGISTRY.find? (fun kv => kv.1 = normalized) with
    | some kv => (kv.2, st, 0)
    | none =>
      match TOKEN_REGISTRY.find? (fun kv => pyStrip (pyLower kv.1) = normalized) with
      | some kv => (kv.2, st, 0)
      | none =>
        match TOKEN_PATTERNS.find? (fun ps => re_search_ci ps.1 token_address) with
        | some ps => (ps.2, st, 0)
        | none =>
          let symbol := parse_token_symbol_from_address token_address
          if st.logged.contains normalized then (symbol, st, 0)
          else (symbol, ⟨normalized :: st.logged⟩, 1)


end DefiApyBot.BotTokenRegistry

namespace DefiApyBot.TokenRegistryRoot

/-!
## `src/token_registry.py`

The standalone top-level registry module; `src/token_parser.py` imports its
`TOKEN_REGISTRY` as the seed mapping.
-/

/-- `TOKEN_REGISTRY` of the top-level module (insertion order kept). -/
def TOKEN_REGISTRY : List (String × String) := [
  ("0x1::aptos_coin::AptosCoin", "APT"),
  ("0xf22bede237a07e121b56d91a491eb7bcdfd1f5907926a9e58338f964a01b17fa::asset::USDC", "USDC"),
  ("0x5e156f1207d0ebfa19a9eeff00d62a282278fb8719f4fab3a586a0a2c0fffbea::coin::T", "USDC"),
  ("0xf22bede237a07e121b56d91a491eb7bcdfd1f5907926a9e58338f964a01b17fa::asset::USDT", "USDT"),
  ("0xf22bede237a07e121b56d91a491eb7bcdfd1f5907926a9e58338f964a01b17fa::asset::DAI", "DAI"),
  ("0xf22bede237a07e121b56d91a491eb7bcdfd1f5907926a9e58338f964a01b17fa::asset::WETH", "WETH"),
  ("0xae478ff7d83ed072dbc5e264250e67ef58f57c99d89b447efd8a0a2e8b2be76e::coin::T", "WETH"),
  ("0xf22bede237a07e121b56d91a491eb7bcdfd1f5907926a9e58338f964a01b17fa::asset::WBTC", "WBTC"),
  ("0xae478ff7d83ed072dbc5e264250e67ef58f57c99d89b447efd8a0a2e8b2be76e::wbtc::WBTC", "WBTC"),
  ("0x111ae3e5bc816a5e63c2da97d0aa3886519e0cd5e4b046659fa35796bd11542a::amapt_token::AmnisApt", "amAPT"),
  ("0x84d7aeef42d38a5ffc3ccef853e1b82e4958659d16a7de736a29c55fbbeb0114::staked_aptos_coin::StakedAptosCoin", "stAPT"),
  ("0xd11107bdf0d6d7040c6c0bfbdecb6545191fdf13e8d8d259952f53e1713f61b5::staked_coin::StakedAptos", "stAPT"),
  ("0xfaf4e633ae9eb31366c9ca24214231760926576c7b625313b3688b5e900731f6::staked_aptos_coin::StakedAptosCoin", "thAPT"),
  ("0x8d87a65ba30e09357fa2edea2c80dbac296e5dec2b18287113500b902942929d::celer_coin_manager::UsdcCoin", "ceUSDC"),
  ("0x8d87a65ba30e09357fa2edea2c80dbac296e5dec2b18287113500b902942929d::celer_coin_manager::UsdtCoin", "ceUSDT"),
  ("0x8d87a65ba30e09357fa2edea2c80dbac296e5dec2b18287113500b902942929d::celer_coin_manager::WethCoin", "ceWETH"),
  ("0x8d87a65ba30e09357fa2edea2c80dbac296e5dec2b18287113500b902942929d::celer_coin_manager::WbtcCoin", "ceWBTC"),
  ("0x5e156f1207d0ebfa19a9eeff00d62a282278fb8719f4fab3a586a0a2c0fffbea::coin::USDC", "whUSDC"),
  ("0x5e156f1207d0ebfa19a9eeff00d62a282278fb8719f4fab3a586a0a2c0fffbea::coin::USDT", "whUSDT"),
  ("0x5e156f1207d0ebfa19a9eeff00d62a282278fb8719f4fab3a586a0a2c0fffbea::coin::WETH", "whWETH"),
  ("0x159df6b7689437016108a019fd5bef736bac692b6d4a1f10c941f6fbb9a74ca6::oft::CakeOFT", "CAKE"),
  ("0x6f986d146e4a90b828d8c12c14b6f4e003fdff11a8eecceceb63744363eaac01::mod_coin::MOD", "MOD"),
  ("0x7fd500c11216f0fe3095d0c4b8aa4d64a4e2e04f83758462f2b127255643615::thl_coin::THL", "THL"),
  ("0x9770fa9c725cbd97eb50b2be5f7416efdfd1f1554beb0750d4dae4c64e860da3::reserve::LP", "amAPT-APT"),
  ("0xe4ccb6d39136469f376242c31b34d10515c8eaaa38092f804db8e08a8f53c5b2::assets_v1::EchoCoin002", "GUI"),
  ("0x7c0322595a73b3fc53bb166f5783470afeb1ed9f46e83d9e0cf27e3f15c40e3::abel_coin::AbelCoin", "ABEL")]

end DefiApyBot.TokenRegistryRoot

namespace DefiApyBot.TokenParser

/-!
## `src/token_parser.py`

The standalone resolver module (pattern table with Celer `ce…` symbols).
Its `TOKEN_REGISTRY` import resolves to `TokenRegistryRoot.TOKEN_REGISTRY`.
-/

/-- `TOKEN_PATTERNS` of `token_parser.py`: literal regexes anchored with `$`,
searched case-SENSITIVELY (`re.search` without flags); stored as
`(pattern body, symbol)`. -/
def TOKEN_PATTERNS : List (String × String) := [
  ("::aptos_coin::AptosCoin", "APT"),
  ("::asset::USDC", "USDC"),
  ("::asset::USDT", "USDT"),
  ("::asset::WETH", "WETH"),
  ("::asset::WBTC", "WBTC"),
  ("::asset::DAI", "DAI"),
  ("UsdcCoin", "ceUSDC"),
  ("UsdtCoin", "ceUSDT"),
  ("WethCoin", "ceWETH"),
  ("WbtcCoin", "ceWBTC"),
  ("DaiCoin", "ceDAI"),
  ("AmnisApt", "amAPT"),
  ("StakedAptosCoin", "stAPT"),
  ("StakedAptos", "stAPT"),
  ("TortugaStakedAptos", "tAPT"),
  ("::coin::USDC", "whUSDC"),
  ("::coin::USDT", "whUSDT"),
  ("::coin::WETH", "whWETH"),
  ("::coin::T", "WETH"),
  ("CakeOFT", "CAKE"),
  ("::mod_coin::MOD", "MOD"),
  ("::thl_coin::THL", "THL")]

/-- `re.search(pattern, s)` (case-sensitive) for a literal pattern anchored with `$`. -/
def re_search_cs (pat s : String) : Bool := pat.data.isSuffixOf s.data

/-- `parse_token_symbol_from_address` of `token_parser.py`. -/
def parse_token_symbol_from_address (address : String) : String :=
  if address = "" then "UNKNOWN"
  else
    let address := pyStrip address
    let parts := pySplitCC address
    if 3 ≤ parts.length then
      let module := (parts.get? (parts.length - 2)).getD ""
      let type_name := parts.getLastD ""
      if type_name = "AptosCoin" then "APT"
      else if module = "asset" then pyUpper type_name
      else if module = "coin" && type_name = "T" then
        (if pyContains (parts.headD "") "5e156f1207d0ebfa" then "WETH" else "COIN")
      else if pyContains type_name "Staked" then
        (if pyContains type_name "Amnis" then "amAPT"
         else if pyContains type_name "Tortuga" then "tAPT"
         else "stAPT")
      else if type_name = "AmnisApt" then "amAPT"
      else if pyEndsWith type_name "Coin" && 4 < type_name.data.length then
        (let base : String := ⟨type_name.data.take (type_name.data.length - 4)⟩
         if ["USDC", "USDT", "WETH", "WBTC", "DAI"].contains (pyUpper base) then
           "ce" ++ pyUpper base
         else pyUpper base)
      else if type_name = "CakeOFT" then "CAKE"
      else if module = "mod_coin" then "MOD"
      else if module = "thl_coin" then "THL"
      else
        match ["USDC", "USDT", "WETH", "WBTC", "DAI", "APT"].find?
            (fun t => pyContains (pyUpper type_name) t) with
        | some t => t
        | none => pyUpper (pyTake type_name 8)
    else if pyStartsWith address "0x" then ⟨'0' :: 'x' :: (address.data.drop 2).take 6⟩
    else pyTake address 10

/-- `get_token_symbol` of `token_parser.py`: registry lookup, then pattern
match (caching the hit into the registry when `use_cache`), then heuristic
parse.  Returns the symbol and the updated registry. -/
def get_token_symbol (registry : List (String × String)) (address : String)
    (use_cache : Bool) : String × List (String × String) :=
  if address = "" then ("UNKNOWN", registry)
  else
    match registry.find? (fun kv => kv.1 = address) with
    | some kv => (kv.2, registry)
    | none =>
      match TOKEN_PATTERNS.find? (fun ps => re_search_cs ps.1 address) with
      | some ps => (ps.2, if use_cache then registry ++ [(address, ps.2)] else registry)
      | none => (parse_token_symbol_from_address address, registry)

end DefiApyBot.TokenParser

namespace DefiApyBot.FeeTier

/-!
## `src/bot/utils/fee_tier.py`
-/

/-- Round `n / 100` to the nearest integer, ties to even (the rounding used by
Python `'%.2f'`-style formatting; exact on the 100/500/2500/10000 convention
values, where no rounding occurs). -/
def roundHalfEven100 (n : Int) : Int :=
  let q := n.fdiv 100
  let r := n.emod 100
  if r < 50 then q else if 50 < r then q + 1 else if q % 2 = 0 then q else q + 1

/-- Render `h` hundredths as a two-decimal string (e.g. `25` ↦ `"0.25"`). -/
def hundredthsToString (h : Int) : String :=
  let sign := if h < 0 then "-" else ""
  let a := h.natAbs
  sign ++ toString (a / 100) ++ "." ++ (if a % 100 < 10 then "0" else "") ++ toString (a % 100)

/-- `format_fee_tier`: `"N/A"` for a zero/absent rate, otherwise
`fee_rate / 10000` formatted as a percentage with two decimals. -/
def format_fee_tier (fee_rate : Int) : String :=
  if fee_rate = 0 then "N/A"
  else hundredthsToString (roundHalfEven100 fee_rate) ++ "%"

end DefiApyBot.FeeTier

namespace DefiApyBot.Adapters

/-!
## `src/bot/adapters/base.py`
-/

/-- `PoolData`: the adapter-level pool record (dataclass). -/
structure PoolData where
  protocol : String
  pool_address : String
  token_x_symbol : String
  token_y_symbol : String
  tvl_usd : ℚ
  volume_24h : ℚ
  apr_fees : ℚ
  apr_farming : ℚ
  total_apr : ℚ
  fees_24h : ℚ
  fee_rate : Int
deriving DecidableEq

end DefiApyBot.Adapters

namespace DefiApyBot.HyperionAdapter

/-!
## `src/bot/adapters/hyperion.py`

The official-API parse path and the DefiLlama / mock fallback chain.
-/

/-- `FA_TO_SYMBOL`: mapping from fungible-asset addresses to symbols. -/
def FA_TO_SYMBOL : List (String × String) := [
  ("0x000000000000000000000000000000000000000000000000000000000000000a", "APT"),
  ("0x0009da434d9b873b5159e8eeed70202ad22dc075867a7793234fbc981b63e119", "APT"),
  ("0xbae207659db88bea0cbead6da0ed00aac12edcdda169e591cd41c94180b46f3b", "USDC"),
  ("0x357b0b74bc833e95a115ad22604854d6b0fca151cecd94111770e5d6ffc9dc2b", "USDT"),
  ("0x377adc4848552eb2ea17259be928001923efe12271fef1667e2b784f04a7cf3a", "USDt"),
  ("0x81214a80d82035a190fcb76b6ff3c0145161c3a9f33d137f2bbaee4cfec8a387", "WBTC"),
  ("0x68844a0d7f2587e726ad0579f3d640865bb4162c08a4589eeda3f9689ec52a3d", "sUSDe"),
  ("0x821c94e69bc7ca058c913b7b5e6b0a5c9fd1523d58723a966fb8c1f5ea888105", "kAPT"),
  ("0x05fabd1b12e39967a3c24e91b7b8f67719a6dacee74f3c8b9fb7d93e855437d2", "???"),
  ("0xb30a694a344edee467d9f82330bbe7c3b89f440a1ecd2da1f3bca266560fce69", "???")]

def PROTOCOL_NAME : String := "hyperion"

/-- `_get_symbol_from_fa`: look up a fungible-asset address, falling back to
a shortened `0x…` form (the last six characters). -/
def get_symbol_from_fa (fa_address : String) : String :=
  if fa_address = "" then "???"
  else
    let clean := pyStrip (pyLower fa_address)
    match FA_TO_SYMBOL.find? (fun kv => kv.1 = clean) with
    | some kv => kv.2
    | none =>
      if 6 < clean.data.length then ⟨'0' :: 'x' :: clean.data.drop (clean.data.length - 6)⟩
      else clean

/-- The nested `pool` sub-object of a `getPoolStat` entry. -/
structure PoolInfo where
  token1 : String
  token2 : String
  feeRate : Int
deriving DecidableEq

/-- A raw `getPoolStat` entry as read by `_parse_pool` (`none` models a
missing / falsy `id` or `pool` value). -/
structure PoolStat where
  id : Option String
  pool : Option PoolInfo
  tvlUSD : ℚ
  dailyVolumeUSD : ℚ
  feesUSD : ℚ
  feeAPR : ℚ
  farmAPR : ℚ
deriving DecidableEq

/-- `_parse_pool`: turn one raw entry into a `PoolData`; a missing pool
object or pool id drops the record (`none`). -/
def parse_pool (pool_stat : PoolStat) : Option Adapters.PoolData :=
  match pool_stat.pool with
  | none => none
  | some pool_info =>
    match pool_stat.id with
    | none => none
    | some pool_id =>
      if pool_id = "" then none
      else
        some { protocol := PROTOCOL_NAME
               pool_address := pool_id
               token_x_symbol := get_symbol_from_fa pool_info.token1
               token_y_symbol := get_symbol_from_fa pool_info.token2
               tvl_usd := pool_stat.tvlUSD
               volume_24h := pool_stat.dailyVolumeUSD
               apr_fees := pool_stat.feeAPR
               apr_farming := pool_stat.farmAPR
               total_apr := pool_stat.feeAPR + pool_stat.farmAPR
               fees_24h := pool_stat.feesUSD
               fee_rate := pool_info.feeRate }

/-- The `popular_pairs` table of `_create_mock_pools_from_tvl`. -/
def popular_pairs : List (String × String × ℚ) :=
  [("APT", "USDC", 4/10), ("APT", "USDT", 3/10), ("USDC", "USDT", 15/100),
   ("APT", "BTC", 1/10), ("APT", "ETH", 5/100)]

/-- `_create_mock_pools_from_tvl`: synthesize placeholder pools distributing
the DefiLlama TVL over the popular pairs (`fee_rate` keeps the dataclass
default `0`; Python float literals `0.1`, `0.003`, `15.0`, `0.7`, `0.3` are
modelled by the exact rationals they denote). -/
def create_mock_pools_from_tvl (total_tvl : ℚ) : List Adapters.PoolData :=
  popular_pairs.enum.map fun ip =>
    let i := ip.1
    let token_x := ip.2.1
    let token_y := ip.2.2.1
    let tvl_share := ip.2.2.2
    let pool_tvl := total_tvl * tvl_share
    let volume_24h := pool_tvl * (1/10)
    let fees_24h := volume_24h * (3/1000)
    let apr_multiplier : ℚ := 1 + (i : ℚ) * (1/10)
    let total_apr := 15 * apr_multiplier
    { protocol := PROTOCOL_NAME
      pool_address := "mock_pool_" ++ toString i ++ "_" ++ token_x ++ "_" ++ token_y
      token_x_symbol := token_x
      token_y_symbol := token_y
      tvl_usd := pool_tvl
      volume_24h := volume_24h
      apr_fees := total_apr * (7/10)
      apr_farming := total_apr * (3/10)
      total_apr := total_apr
      fees_24h := fees_24h
      fee_rate := 0 }

/-- The literal table of `_create_mock_pools`:
`(token_x, token_y, tvl, volume, fees, apr_fees, apr_farming)`. -/
def mock_pools_data : List (String × String × ℚ × ℚ × ℚ × ℚ × ℚ) :=
  [("APT", "USDC", 1000000, 100000, 5000, 125/10, 55/10),
   ("APT", "USDT", 750000, 75000, 3750, 15, 6),
   ("USDC", "USDT", 500000, 50000, 2500, 8, 2),
   ("APT", "BTC", 250000, 25000, 1250, 20, 8)]

/-- `_create_mock_pools`: the last-resort demonstration pools. -/
def create_mock_pools : List Adapters.PoolData :=
  mock_pools_data.enum.map fun ip =>
    let i := ip.1
    let token_x := ip.2.1
    let token_y := ip.2.2.1
    let tvl := ip.2.2.2.1
    let volume := ip.2.2.2.2.1
    let fees := ip.2.2.2.2.2.1
    let apr_fees := ip.2.2.2.2.2.2.1
    let apr_farming := ip.2.2.2.2.2.2.2
    { protocol := PROTOCOL_NAME
      pool_address := "mock_pool_" ++ toString i ++ "_" ++ token_x ++ "_" ++ token_y
      token_x_symbol := token_x
      token_y_symbol := token_y
      tvl_usd := tvl
      volume_24h := volume
      apr_fees := apr_fees
      apr_farming := apr_farming
      total_apr := apr_fees + apr_farming
      fees_24h := fees
      fee_rate := 0 }

end DefiApyBot.HyperionAdapter

namespace DefiApyBot.HyperionEnhanced

/-!
## `src/bot/utils/hyperion_enhanced.py`

`HyperionAPI`: TTL cache, enrichment and the filter pipeline.  `get_all_pools`
is modelled as a pure function of the cache state, the current time, the
`force_refresh` flag and the outcome of the (at most one) upstream request a
single call can issue.
-/

/-- A raw `getPoolStat` entry as consumed by `_enrich_pool` / `get_all_pools`
(the nested `pool` sub-dictionary's fields are inlined). -/
structure PoolStat where
  id : String
  tvlUSD : ℚ
  dailyVolumeUSD : ℚ
  feesUSD : ℚ
  feeAPR : ℚ
  farmAPR : ℚ
  token1 : String
  token2 : String
  feeRate : Int
deriving DecidableEq

/-- An enriched pool dictionary: the raw fields (spread via `**pool`) plus the
fields added by `_enrich_pool`. -/
structure EnrichedPool where
  id : String
  tvlUSD : ℚ
  dailyVolumeUSD : ℚ
  feesUSD : ℚ
  feeAPR : ℚ
  farmAPR : ℚ
  token1 : String
  token2 : String
  feeRate : Int
  token_a : String
  token_b : String
  fee_tier_display : String
  fee_tier_value : Int
  total_apr : ℚ
  has_farm : Bool
  apr_change : String
deriving DecidableEq

/-- `_enrich_pool`.  The token symbols come from
`bot.utils.token_registry.get_token_symbol`; by
`BotTokenRegistry.get_token_symbol_fst_state_free` the returned symbol does
not depend on the global logged-set, so the resolver is invoked here at the
empty logged-set. -/
def enrich_pool (pool : PoolStat) : EnrichedPool :=
  let fee_rate := pool.feeRate
  let fee_apr := pool.feeAPR
  let farm_apr := pool.farmAPR
  let total_apr := fee_apr + farm_apr
  { id := pool.id
    tvlUSD := pool.tvlUSD
    dailyVolumeUSD := pool.dailyVolumeUSD
    feesUSD := pool.feesUSD
    feeAPR := pool.feeAPR
    farmAPR := pool.farmAPR
    token1 := pool.token1
    token2 := pool.token2
    feeRate := pool.feeRate
    token_a := (BotTokenRegistry.get_token_symbol ⟨[]⟩ pool.token1).1
    token_b := (BotTokenRegistry.get_token_symbol ⟨[]⟩ pool.token2).1
    fee_tier_display := FeeTier.format_fee_tier fee_rate
    fee_tier_value := fee_rate
    total_apr := total_apr
    has_farm := decide (farm_apr > 0)
    apr_change := if total_apr > 100 then "+1" else "0" }

/-- The cache state of a `HyperionAPI` instance
(`_cache = None`, `_cache_timestamp = 0` after `__init__`). -/
structure State where
  cache : Option (List EnrichedPool)
  cache_timestamp : ℚ
deriving DecidableEq

def State.init : State := ⟨none, 0⟩

/-- Python truthiness of `self._cache`: `None` and `[]` are falsy. -/
def cache_truthy (s : State) : Bool :=
  match s.cache with
  | some (_ :: _) => true
  | _ => false

def CACHE_TTL : ℚ := 60

/-- Result of one `get_all_pools` call: the returned value (or the propagated
exception), the new cache state, and whether `_fetch_pools_from_api` was
invoked. -/
structure CallResult where
  result : Except Unit (List EnrichedPool)
  state : State
  api_called : Bool

/-- `get_all_pools(force_refresh)` at time `current_time`, where `api` is the
outcome the upstream request would have (`.error` covers transport errors,
non-200 statuses and GraphQL error payloads, all raised as exceptions by
`_fetch_pools_from_api`). -/
def get_all_pools (s : State) (current_time : ℚ) (force_refresh : Bool)
    (api : Except Unit (List PoolStat)) : CallResult :=
  if !force_refresh && cache_truthy s
      && decide (current_time - s.cache_timestamp < CACHE_TTL) then
    { result := .ok (s.cache.getD []), state := s, api_called := false }
  else
    match api with
    | .ok raw_pools =>
      let active_pools := raw_pools.filter fun p =>
        decide (100000 ≤ p.tvlUSD) && decide (50000 ≤ p.dailyVolumeUSD)
      let enriched_pools := active_pools.map enrich_pool
      { result := .ok enriched_pools
        state := { cache := some enriched_pools, cache_timestamp := current_time }
        api_called := true }
    | .error _ =>
      if cache_truthy s then
        { result := .ok (s.cache.getD []), state := s, api_called := true }
      else
        { result := .error (), state := s, api_called := true }

/-- The sort-key table of `filter_pools`
(`sort_keys.get(sort_by, sort_keys['tvl'])`). -/
def sort_key (sort_by : String) : EnrichedPool → ℚ :=
  match sort_by with
  | "tvl" => fun p => p.tvlUSD
  | "volume" => fun p => p.dailyVolumeUSD
  | "apr" => fun p => p.total_apr
  | "fees" => fun p => p.feesUSD
  | _ => fun p => p.tvlUSD

/-- `filter_pools` of `HyperionAPI`.  Note the source has NO volume
parameter: the `$50,000` daily-volume floor is applied unconditionally.
`limit=0`/`fee_tiers=[]` are falsy in Python and disable the corresponding
step; negative limits are not modelled. -/
def filter_pools (pools : List EnrichedPool) (min_tvl : ℚ)
    (fee_tiers : Option (List Int)) (has_farm : Option Bool)
    (sort_by : String) (limit : Option Nat) : List EnrichedPool :=
  let filtered := pools.filter fun p => decide (min_tvl ≤ p.tvlUSD)
  let filtered := filtered.filter fun p => decide (50000 ≤ p.dailyVolumeUSD)
  let filtered := filtered.filter fun p => decide (0 < p.tvlUSD)
  let filtered : List EnrichedPool :=
    match fee_tiers with
    | some fts => if fts.isEmpty then filtered
                  else filtered.filter fun (p : EnrichedPool) => fts.contains p.fee_tier_value
    | none => filtered
  let filtered : List EnrichedPool :=
    match has_farm with
    | some hf => filtered.filter fun p => p.has_farm == hf
    | none => filtered
  let filtered := filtered.mergeSort fun a b =>
    decide (sort_key sort_by b ≤ sort_key sort_by a)
  match limit with
  | some n => if n ≠ 0 then filtered.take n else filtered
  | none => filtered

end DefiApyBot.HyperionEnhanced

namespace DefiApyBot.BluefinEnhanced

/-!
## `src/bot/utils/bluefin_enhanced.py`

`BluefinAPI`: the same cache discipline as `HyperionAPI`, a different raw
shape, activity filter and enrichment, and a `filter_pools` with an explicit
`min_volume` parameter (defaulting to `50000` at the call boundary).
-/

/-- A raw Bluefin pool entry as read by `_enrich_pool` (the source probes
several alternative keys per field, e.g. `tvlUSD`/`tvl`; each logical field
is modelled once). -/
structure RawPool where
  id : String
  token0 : String
  token1 : String
  tvlUSD : ℚ
  volume24h : ℚ
  fees24h : ℚ
  feeRate : Int
  feeAPR : ℚ
  farmAPR : ℚ
deriving DecidableEq

/-- An enriched Bluefin pool dictionary (original keys spread via `**pool`
are kept only through the canonical fields written by `_enrich_pool`). -/
structure EnrichedPool where
  pool_address : String
  token_a : String
  token_b : String
  tvlUSD : ℚ
  dailyVolumeUSD : ℚ
  feesUSD : ℚ
  fee_tier_display : String
  fee_tier_value : Int
  feeAPR : ℚ
  farmAPR : ℚ
  total_apr : ℚ
  has_farm : Bool
deriving DecidableEq

/-- `_enrich_pool` of `BluefinAPI` (fee rates below 100 are percentages and
are scaled by 10000 into the Hyperion convention). -/
def enrich_pool (pool : RawPool) : EnrichedPool :=
  let fee_rate := pool.feeRate
  let fee_rate := if 0 < fee_rate && fee_rate < 100 then fee_rate * 10000 else fee_rate
  let fee_apr := pool.feeAPR
  let farm_apr := pool.farmAPR
  let total_apr := fee_apr + farm_apr
  { pool_address := pool.id
    token_a := pool.token0
    token_b := pool.token1
    tvlUSD := pool.tvlUSD
    dailyVolumeUSD := pool.volume24h
    feesUSD := pool.fees24h
    fee_tier_display := FeeTier.format_fee_tier fee_rate
    fee_tier_value := fee_rate
    feeAPR := fee_apr
    farmAPR := farm_apr
    total_apr := total_apr
    has_farm := decide (farm_apr > 0) }

/-- The cache state of a `BluefinAPI` instance. -/
structure State where
  cache : Option (List EnrichedPool)
  cache_timestamp : ℚ
deriving DecidableEq

def State.init : State := ⟨none, 0⟩

/-- Python truthiness of `self._cache`. -/
def cache_truthy (s : State) : Bool :=
  match s.cache with
  | some (_ :: _) => true
  | _ => false

def CACHE_TTL : ℚ := 60

/-- Result of one Bluefin `get_all_pools` call. -/
structure CallResult where
  result : Except Unit (List EnrichedPool)
  state : State
  api_called : Bool

/-- `get_all_pools(force_refresh)` of `BluefinAPI` (activity filter:
`tvl > 0` and `volume > 0`). -/
def get_all_pools (s : State) (current_time : ℚ) (force_refresh : Bool)
    (api : Except Unit (List RawPool)) : CallResult :=
  if !force_refresh && cache_truthy s
      && decide (current_time - s.cache_timestamp < CACHE_TTL) then
    { result := .ok (s.cache.getD []), state := s, api_called := false }
  else
    match api with
    | .ok raw_pools =>
      let active_pools := raw_pools.filter fun p =>
        decide (0 < p.tvlUSD) && decide (0 < p.volume24h)
      let enriched_pools := active_pools.map enrich_pool
      { result := .ok enriched_pools
        state := { cache := some enriched_pools, cache_timestamp := current_time }
        api_called := true }
    | .error _ =>
      if cache_truthy s then
        { result := .ok (s.cache.getD []), state := s, api_called := true }
      else
        { result := .error (), state := s, api_called := true }

/-- The sort-key table of Bluefin `filter_pools`. -/
def sort_key (sort_by : String) : EnrichedPool → ℚ :=
  match sort_by with
  | "tvl" => fun p => p.tvlUSD
  | "volume" => fun p => p.dailyVolumeUSD
  | "apr" => fun p => p.total_apr
  | "fees" => fun p => p.feesUSD
  | _ => fun p => p.tvlUSD

/-- `filter_pools` of `BluefinAPI`; `min_volume` is a parameter here, with
Python default `50000` supplied by callers that omit it. -/
def filter_pools (pools : List EnrichedPool) (min_tvl : ℚ) (min_volume : ℚ)
    (fee_tiers : Option (List Int)) (has_farm : Option Bool)
    (sort_by : String) (limit : Option Nat) : List EnrichedPool :=
  let filtered := pools.filter fun p => decide (min_tvl ≤ p.tvlUSD)
  let filtered := filtered.filter fun p => decide (min_volume ≤ p.dailyVolumeUSD)
  let filtered := filtered.filter fun p => decide (0 < p.tvlUSD)
  let filtered : List EnrichedPool :=
    match fee_tiers with
    | some fts => if fts.isEmpty then filtered
                  else filtered.filter fun (p : EnrichedPool) => fts.contains p.fee_tier_value
    | none => filtered
  let filtered : List EnrichedPool :=
    match has_farm with
    | some hf => filtered.filter fun p => p.has_farm == hf
    | none => filtered
  let filtered := filtered.mergeSort fun a b =>
    decide (sort_key sort_by b ≤ sort_key sort_by a)
  match limit with
  | some n => if n ≠ 0 then filtered.take n else filtered
  | none => filtered

end DefiApyBot.BluefinEnhanced

namespace DefiApyBot.TokenSearch

/-!
## `src/bot/utils/token_search.py`

`TokenSearchEngine`: query normalization, per-blockchain fan-out, filtering,
aggregation and ranking.  Each registered protocol is modelled with the
outcome its `get_all_pools()` call would have (`.error` = the exception that
the engine catches and logs, skipping the protocol).  The engine reads only
the keys `token_a`, `token_b`, `tvlUSD` (with the `tvl_usd` alternative
collapsed onto it) and `total_apr` of each pool dictionary.
-/

/-- The slice of an enriched pool dictionary the search engine reads. -/
structure Pool where
  token_a : String
  token_b : String
  tvlUSD : ℚ
  total_apr : ℚ
deriving DecidableEq

/-- `ProtocolResult` dataclass. -/
structure ProtocolResult where
  protocol_id : String
  protocol_name : String
  protocol_emoji : String
  pool_count : Nat
  total_tvl : ℚ
  best_apr : ℚ
  pools : List Pool
deriving DecidableEq

/-- `BlockchainResult` dataclass. -/
structure BlockchainResult where
  chain_id : String
  chain_name : String
  chain_emoji : String
  pool_count : Nat
  total_tvl : ℚ
  protocols : List ProtocolResult
  best_apr : ℚ
deriving DecidableEq

/-- `TokenSearchResult` dataclass. -/
structure TokenSearchResult where
  token : String
  total_pools : Nat
  blockchains : List BlockchainResult
deriving DecidableEq

/-- One registered protocol of `self.protocols[chain_id]`, together with the
outcome of its `get_all_pools()` call. -/
structure ProtocolSource where
  protocol_id : String
  name : String
  emoji : String
  fetch : Except Unit (List Pool)

/-- One registered blockchain of `self.protocols`. -/
structure ChainSource where
  chain_id : String
  protocols : List ProtocolSource

/-- The match test applied to each pool by `_filter_pools` (a pool token
side is upper-cased before comparison; `token_b` is tested for Python
truthiness, so `None` and `""` both select the single-token branch). -/
def pool_matches (token_a : String) (token_b : Option String) (pool : Pool) : Bool :=
  let pool_token_a := pyUpper pool.token_a
  let pool_token_b := pyUpper pool.token_b
  let tb_truthy := match token_b with
    | some t => t != ""
    | none => false
  if tb_truthy then
    let tb := token_b.getD ""
    (pool_token_a == token_a && pool_token_b == tb)
      || (pool_token_a == tb && pool_token_b == token_a)
  else
    token_a == pool_token_a || token_a == pool_token_b

/-- `_filter_pools`: keep the matching pools, sorted descending by TVL. -/
def filter_pools (pools : List Pool) (token_a : String) (token_b : Option String) :
    List Pool :=
  ((pools.filter (pool_matches token_a token_b)).mergeSort
    fun x y => decide (y.tvlUSD ≤ x.tvlUSD))

/-- The `chain_info` metadata table of `_search_in_blockchain`. -/
def chain_info : List (String × String × String) :=
  [("aptos", "Aptos", "🔷"), ("sui", "Sui", "🔵"), ("bsc", "BSC", "🔶"),
   ("ethereum", "Ethereum", "🔷"), ("solana", "Solana", "🟢")]

/-- `_search_in_blockchain`: build the per-protocol results of one chain and
aggregate them (`None` when no protocol produced a match; a failing protocol
fetch is caught and skipped). -/
def search_in_blockchain (chain_id : String) (protocols : List ProtocolSource)
    (token_a : String) (token_b : Option String) : Option BlockchainResult :=
  let protocol_results : List ProtocolResult := protocols.filterMap fun pi =>
    match pi.fetch with
    | .error _ => none
    | .ok pools =>
      let filtered := filter_pools pools token_a token_b
      if filtered.isEmpty then none
      else
        some { protocol_id := pi.protocol_id
               protocol_name := pi.name
               protocol_emoji := pi.emoji
               pool_count := filtered.length
               total_tvl := (filtered.map fun p => p.tvlUSD).sum
               best_apr := pyMaxD (filtered.map fun p => p.total_apr) 0
               pools := filtered }
  if protocol_results.isEmpty then none
  else
    let meta := match chain_info.find? fun e => e.1 = chain_id with
      | some e => e.2
      | none => (pyCapitalize chain_id, "🔷")
    some { chain_id := chain_id
           chain_name := meta.1
           chain_emoji := meta.2
           pool_count := (protocol_results.map fun pr => pr.pool_count).sum
           total_tvl := (protocol_results.map fun pr => pr.total_tvl).sum
           protocols := protocol_results
           best_apr := pyMaxD (protocol_results.map fun pr => pr.best_apr) 0 }

/-- `search_token(query)`: normalization of `query`
(`query.upper().replace('/', '-').strip()`). -/
def normalize_query (query : String) : String :=
  pyStrip (pyReplaceChar (pyUpper query) '/' '-')

/-- The fan-out / aggregation part of `search_token` after the query has been
normalized and parsed into one or two tokens (a per-chain exception cannot
occur in the pure model, matching the source where `_search_in_blockchain`
already catches per-protocol errors). -/
def run_search (token_a : String) (token_b : Option String) (query : String)
    (chains : List ChainSource) : TokenSearchResult :=
  let blockchain_results : List BlockchainResult := chains.filterMap fun ch =>
    match search_in_blockchain ch.chain_id ch.protocols token_a token_b with
    | some chain_result => if 0 < chain_result.pool_count then some chain_result else none
    | none => none
  let blockchain_results := blockchain_results.mergeSort
    fun x y => decide (y.total_tvl ≤ x.total_tvl)
  { token := query
    total_pools := (blockchain_results.map fun b => b.pool_count).sum
    blockchains := blockchain_results }

/-- `search_token(query)`: normalize, decide single-token vs pair query
(raising `ValueError("Invalid pair format")` unless a pair query splits into
exactly two segments), fan out and aggregate. -/
def search_token (query : String) (chains : List ChainSource) :
    Except String TokenSearchResult :=
  let query := normalize_query query
  let is_pair := query.data.contains '-'
  if is_pair then
    match pySplitChar '-' query with
    | [token_a, token_b] => .ok (run_search token_a (some token_b) query chains)
    | _ => .error "Invalid pair format"
  else .ok (run_search query none query chains)

end DefiApyBot.TokenSearch

namespace DefiApyBot

/-! ## Supporting lemmas -/

/-- `splitOnSep` never returns the empty list. -/
theorem splitOnSep_ne_nil (sep : Char) (l : List Char) : splitOnSep sep l ≠ [] := by
  cases l with
  | nil => simp [splitOnSep]
  | cons c rest =>
    simp only [splitOnSep]
    split
    · simp
    · split <;> simp

/-- If splitting on `sep` yields at least two chunks, the separator occurs in the list. -/
theorem mem_of_splitOnSep_length (sep : Char) (l : List Char)
    (h : 2 ≤ (splitOnSep sep l).length) : sep ∈ l := by
  induction l with
  | nil => simp [splitOnSep] at h
  | cons c rest ih =>
    by_cases hc : c = sep
    · subst hc; exact List.mem_cons_self _ _
    · simp only [splitOnSep, if_neg hc] at h
      rcases hr : splitOnSep sep rest with _ | ⟨hd, tl⟩
      · exact absurd hr (splitOnSep_ne_nil sep rest)
      · rw [hr] at h
        simp only [List.length_cons] at h
        have : 2 ≤ (splitOnSep sep rest).length := by
          rw [hr]; simp only [List.length_cons]; omega
        exact List.mem_cons_of_mem _ (ih this)

/-- Two lists that cannot be suffixes of one another are never both suffixes
of the same list. -/
theorem not_suffix_of_suffix {α : Type} {s a b : List α}
    (ha : a <:+ s) (hab : ¬ a <:+ b) (hba : ¬ b <:+ a) : ¬ b <:+ s := fun hb =>
  (List.suffix_or_suffix_of_suffix hb ha).elim hba fun h => hab h

/-- The symbol returned by `BotTokenRegistry.get_token_symbol` does not depend
on the logged-set state (the state influences logging only); this justifies
invoking the resolver at the empty logged-set inside
`HyperionEnhanced.enrich_pool`. -/
theorem get_token_symbol_fst_state_free (st st' : BotTokenRegistry.TRState) (a : String) :
    (BotTokenRegistry.get_token_symbol st a).1 = (BotTokenRegistry.get_token_symbol st' a).1 := by
  unfold BotTokenRegistry.get_token_symbol
  split
  · rfl
  · dsimp only
    repeat' split
    all_goals rfl

end DefiApyBot

namespace DefiApyBot

/-! ## Claim C1 -/

/-- C1: every pool record produced by an adapter — records enriched by
`HyperionAPI._enrich_pool` and `BluefinAPI._enrich_pool`, records parsed by
`HyperionAdapter._parse_pool`, and records synthesized by the fallback chain
(`_create_mock_pools_from_tvl`, `_create_mock_pools`) — satisfies
`total_apr = apr_fees + apr_farming` exactly, and carries
`has_farm = (apr_farming > 0)` wherever the record has that field
(the adapter-level `PoolData` has no `has_farm` field). -/
theorem c1_total_apr_invariant :
    (∀ p : HyperionEnhanced.PoolStat,
        (HyperionEnhanced.enrich_pool p).total_apr
          = (HyperionEnhanced.enrich_pool p).feeAPR + (HyperionEnhanced.enrich_pool p).farmAPR
        ∧ ((HyperionEnhanced.enrich_pool p).has_farm = true
            ↔ 0 < (HyperionEnhanced.enrich_pool p).farmAPR))
    ∧ (∀ p : BluefinEnhanced.RawPool,
        (BluefinEnhanced.enrich_pool p).total_apr
          = (BluefinEnhanced.enrich_pool p).feeAPR + (BluefinEnhanced.enrich_pool p).farmAPR
        ∧ ((BluefinEnhanced.enrich_pool p).has_farm = true
            ↔ 0 < (BluefinEnhanced.enrich_pool p).farmAPR))
    ∧ (∀ (ps : HyperionAdapter.PoolStat) (pd : Adapters.PoolData),
        HyperionAdapter.parse_pool ps = some pd →
        pd.total_apr = pd.apr_fees + pd.apr_farming)
    ∧ (∀ (t : ℚ), ∀ pd ∈ HyperionAdapter.create_mock_pools_from_tvl t,
        pd.total_apr = pd.apr_fees + pd.apr_farming)
    ∧ (∀ pd ∈ HyperionAdapter.create_mock_pools,
        pd.total_apr = pd.apr_fees + pd.apr_farming) := by
  refine ⟨fun p => ⟨rfl, ?_⟩, fun p => ⟨rfl, ?_⟩, ?_, ?_, ?_⟩
  · simp [HyperionEnhanced.enrich_pool]
  · simp [BluefinEnhanced.enrich_pool]
  · intro ps pd h
    unfold HyperionAdapter.parse_pool at h
    split at h
    · cases h
    · split at h
      · cases h
      · split at h
        · cases h
        · cases h; rfl
  · intro t pd hmem
    simp only [HyperionAdapter.create_mock_pools_from_tvl, List.mem_map] at hmem
    obtain ⟨ip, -, rfl⟩ := hmem
    show (15 : ℚ) * (1 + (ip.1 : ℚ) * (1/10))
        = (15 : ℚ) * (1 + (ip.1 : ℚ) * (1/10)) * (7/10)
          + (15 : ℚ) * (1 + (ip.1 : ℚ) * (1/10)) * (3/10)
    ring
  · intro pd hmem
    fin_cases hmem <;> rfl

/-- Witness for C1: the hypotheses of the conditional conjuncts are
satisfiable — a concrete parsed pool, a concrete fallback pool from a
DefiLlama TVL of 1000, and a concrete last-resort mock pool all satisfy the
invariant. -/
theorem c1_total_apr_invariant_witness :
    ({ protocol := "hyperion", pool_address := "p1", token_x_symbol := "APT",
       token_y_symbol := "USDC", tvl_usd := 1, volume_24h := 1, apr_fees := 2,
       apr_farming := 3, total_apr := 2 + 3, fees_24h := 1,
       fee_rate := 2500 } : Adapters.PoolData).total_apr
      = ({ protocol := "hyperion", pool_address := "p1", token_x_symbol := "APT",
           token_y_symbol := "USDC", tvl_usd := 1, volume_24h := 1, apr_fees := 2,
           apr_farming := 3, total_apr := 2 + 3, fees_24h := 1,
           fee_rate := 2500 } : Adapters.PoolData).apr_fees
        + ({ protocol := "hyperion", pool_address := "p1", token_x_symbol := "APT",
             token_y_symbol := "USDC", tvl_usd := 1, volume_24h := 1, apr_fees := 2,
             apr_farming := 3, total_apr := 2 + 3, fees_24h := 1,
             fee_rate := 2500 } : Adapters.PoolData).apr_farming
    ∧ ∀ pd ∈ HyperionAdapter.create_mock_pools_from_tvl 1000,
        pd.total_apr = pd.apr_fees + pd.apr_farming := by
  constructor
  · exact c1_total_apr_invariant.2.2.1
      { id := some "p1"
        pool := some { token1 := "0x000000000000000000000000000000000000000000000000000000000000000a",
                       token2 := "0xbae207659db88bea0cbead6da0ed00aac12edcdda169e591cd41c94180b46f3b",
                       feeRate := 2500 }
        tvlUSD := 1, dailyVolumeUSD := 1, feesUSD := 1, feeAPR := 2, farmAPR := 3 }
      _ rfl
  · exact c1_total_apr_invariant.2.2.2.1 1000

end DefiApyBot

namespace DefiApyBot

/-! ## Claims C5 and C9 (token resolver) -/

/-- Counterexample to C5: the resolver returns the last segment `"Foo"`
verbatim (truncated to 8 characters but NOT upper-cased), so the claimed
result `"FOO"` is wrong. -/
theorem c5_heuristic_counterexample :
    (BotTokenRegistry.get_token_symbol ⟨[]⟩ "0xdeadbeef::mod::Foo").1 = "Foo"
      ∧ ("Foo" : String) ≠ "FOO" := ⟨rfl, by decide⟩

/-- C5 (amended): resolving `0xdeadbeef::mod::Foo` (registry miss, no pattern
match) returns the cleaned last segment `"Foo"` truncated to 8 characters —
without upper-casing — and logs the identifier exactly once per process
lifetime even when it is resolved twice (one log line on the first call,
none on the second, which starts from the state left by the first). -/
theorem c5_heuristic_resolution_logs_once :
    BotTokenRegistry.get_token_symbol ⟨[]⟩ "0xdeadbeef::mod::Foo"
        = ("Foo", ⟨["0xdeadbeef::mod::foo"]⟩, 1)
      ∧ BotTokenRegistry.get_token_symbol ⟨["0xdeadbeef::mod::foo"]⟩ "0xdeadbeef::mod::Foo"
        = ("Foo", ⟨["0xdeadbeef::mod::foo"]⟩, 0)
      ∧ "Foo" = pyTake "Foo" 8 := ⟨rfl, rfl, rfl⟩

/-- C9: for every key of the seed registry, `get_token_symbol` returns the
registered symbol, leaves the logged-set untouched and emits no log line;
hence an immediate second call (from the state the first call left) returns
the same symbol again. -/
theorem c9_registry_hit_idempotent (st : BotTokenRegistry.TRState) (k v : String)
    (h : (k, v) ∈ BotTokenRegistry.TOKEN_REGISTRY) :
    BotTokenRegistry.get_token_symbol st k = (v, st, 0)
      ∧ BotTokenRegistry.get_token_symbol
          ((BotTokenRegistry.get_token_symbol st k).2.1) k = (v, st, 0) := by
  fin_cases h <;> exact ⟨rfl, rfl⟩

/-- Witness for C9 at the native-APT registry entry. -/
theorem c9_registry_hit_idempotent_witness :
    BotTokenRegistry.get_token_symbol ⟨[]⟩ "0x1::aptos_coin::AptosCoin"
        = ("APT", ⟨[]⟩, 0)
      ∧ BotTokenRegistry.get_token_symbol
          ((BotTokenRegistry.get_token_symbol ⟨[]⟩ "0x1::aptos_coin::AptosCoin").2.1)
          "0x1::aptos_coin::AptosCoin" = ("APT", ⟨[]⟩, 0) :=
  c9_registry_hit_idempotent ⟨[]⟩ "0x1::aptos_coin::AptosCoin" "APT" (by decide)

end DefiApyBot

namespace DefiApyBot

/-! ## Cache lemmas (shared by C2, C3, C10) -/

/-- A Hyperion `get_all_pools` call that issued the upstream request and got a
successful response stores the enriched active pools and returns them. -/
theorem hyperion_fetch_shape (s : HyperionEnhanced.State) (t : ℚ) (f : Bool)
    (raw : List HyperionEnhanced.PoolStat)
    (h : (HyperionEnhanced.get_all_pools s t f (.ok raw)).api_called = true) :
    HyperionEnhanced.get_all_pools s t f (.ok raw)
      = { result := .ok ((raw.filter (fun p =>
              decide (100000 ≤ p.tvlUSD) && decide (50000 ≤ p.dailyVolumeUSD))).map
              HyperionEnhanced.enrich_pool),
          state := { cache := some ((raw.filter (fun p =>
                         decide (100000 ≤ p.tvlUSD)
                           && decide (50000 ≤ p.dailyVolumeUSD))).map
                         HyperionEnhanced.enrich_pool),
                     cache_timestamp := t },
          api_called := true } := by
  unfold HyperionEnhanced.get_all_pools at h ⊢
  split at h
  · simp at h
  · rename_i hcond
    rw [if_neg hcond]

/-- A Bluefin `get_all_pools` call that issued the upstream request and got a
successful response stores the enriched active pools and returns them. -/
theorem bluefin_fetch_shape (s : BluefinEnhanced.State) (t : ℚ) (f : Bool)
    (raw : List BluefinEnhanced.RawPool)
    (h : (BluefinEnhanced.get_all_pools s t f (.ok raw)).api_called = true) :
    BluefinEnhanced.get_all_pools s t f (.ok raw)
      = { result := .ok ((raw.filter (fun p =>
              decide (0 < p.tvlUSD) && decide (0 < p.volume24h))).map
              BluefinEnhanced.enrich_pool),
          state := { cache := some ((raw.filter (fun p =>
                         decide (0 < p.tvlUSD) && decide (0 < p.volume24h))).map
                         BluefinEnhanced.enrich_pool),
                     cache_timestamp := t },
          api_called := true } := by
  unfold BluefinEnhanced.get_all_pools at h ⊢
  split at h
  · simp at h
  · rename_i hcond
    rw [if_neg hcond]

/-- A fresh (within-TTL) nonempty Hyperion cache answers a non-forced call
without touching the upstream. -/
theorem hyperion_cache_hit (l : List HyperionEnhanced.EnrichedPool) (t1 t2 : ℚ)
    (u : Except Unit (List HyperionEnhanced.PoolStat))
    (hl : l ≠ []) (httl : t2 - t1 < 60) :
    HyperionEnhanced.get_all_pools ⟨some l, t1⟩ t2 false u
      = { result := .ok l, state := ⟨some l, t1⟩, api_called := false } := by
  unfold HyperionEnhanced.get_all_pools
  rw [if_pos]
  · simp
  · have hc : HyperionEnhanced.cache_truthy ⟨some l, t1⟩ = true := by
      cases l with
      | nil => exact absurd rfl hl
      | cons a t => rfl
    simp [hc, HyperionEnhanced.CACHE_TTL, httl]

/-- A Hyperion cache holding the empty list is falsy: a subsequent call always
goes upstream, and an upstream failure then propagates. -/
theorem hyperion_fetch_on_empty_cache (t1 t2 : ℚ)
    (u : Except Unit (List HyperionEnhanced.PoolStat)) :
    (HyperionEnhanced.get_all_pools ⟨some [], t1⟩ t2 false u).api_called = true
      ∧ (HyperionEnhanced.get_all_pools ⟨some [], t1⟩ t2 false (.error ())).result
        = .error () := by
  constructor
  · unfold HyperionEnhanced.get_all_pools
    rw [if_neg (by simp [HyperionEnhanced.cache_truthy])]
    cases u with
    | ok raw => rfl
    | error e => dsimp only; split <;> rfl
  · unfold HyperionEnhanced.get_all_pools
    rw [if_neg (by simp [HyperionEnhanced.cache_truthy])]
    rfl

/-- A Bluefin cache holding the empty list is falsy: a subsequent call always
goes upstream, and an upstream failure then propagates. -/
theorem bluefin_fetch_on_empty_cache (t1 t2 : ℚ)
    (u : Except Unit (List BluefinEnhanced.RawPool)) :
    (BluefinEnhanced.get_all_pools ⟨some [], t1⟩ t2 false u).api_called = true
      ∧ (BluefinEnhanced.get_all_pools ⟨some [], t1⟩ t2 false (.error ())).result
        = .error () := by
  constructor
  · unfold BluefinEnhanced.get_all_pools
    rw [if_neg (by simp [BluefinEnhanced.cache_truthy])]
    cases u with
    | ok raw => rfl
    | error e => dsimp only; split <;> rfl
  · unfold BluefinEnhanced.get_all_pools
    rw [if_neg (by simp [BluefinEnhanced.cache_truthy])]
    rfl

end DefiApyBot

namespace DefiApyBot

/-! ## Claims C2, C3, C10 (cache behaviour of `get_all_pools`) -/

/-- Counterexample to C2: an adapter state whose cache entry exists but holds
the empty list ( `self._cache = []` is falsy in Python) makes `get_all_pools`
raise on upstream failure instead of returning the cached list. -/
theorem c2_stale_cache_counterexample :
    (HyperionEnhanced.get_all_pools ⟨some [], 0⟩ 10 false (.error ())).result = .error ()
      ∧ (⟨some [], 0⟩ : HyperionEnhanced.State).cache ≠ none := by
  constructor
  · rfl
  · simp

/-- C2 (amended): `get_all_pools` raises only when the upstream call fails
and no NONEMPTY cache exists; for every state holding a nonempty cached list
(fresh or stale), a simulated upstream failure returns the cached list.  An
empty cached list is falsy and does not count as a cache entry.  Holds for
both adapters. -/
theorem c2_stale_cache_fallback :
    (∀ (s : HyperionEnhanced.State) (now : ℚ) (force : Bool)
        (l : List HyperionEnhanced.EnrichedPool),
        s.cache = some l → l ≠ [] →
        (HyperionEnhanced.get_all_pools s now force (.error ())).result = .ok l)
    ∧ (∀ (s : HyperionEnhanced.State) (now : ℚ) (force : Bool)
        (api : Except Unit (List HyperionEnhanced.PoolStat)),
        (HyperionEnhanced.get_all_pools s now force api).result = .error () →
        api = .error () ∧ HyperionEnhanced.cache_truthy s = false)
    ∧ (∀ (s : BluefinEnhanced.State) (now : ℚ) (force : Bool)
        (l : List BluefinEnhanced.EnrichedPool),
        s.cache = some l → l ≠ [] →
        (BluefinEnhanced.get_all_pools s now force (.error ())).result = .ok l)
    ∧ (∀ (s : BluefinEnhanced.State) (now : ℚ) (force : Bool)
        (api : Except Unit (List BluefinEnhanced.RawPool)),
        (BluefinEnhanced.get_all_pools s now force api).result = .error () →
        api = .error () ∧ BluefinEnhanced.cache_truthy s = false) := by
  refine ⟨?_, ?_, ?_, ?_⟩
  · intro s now force l hc hl
    have ht : HyperionEnhanced.cache_truthy s = true := by
      unfold HyperionEnhanced.cache_truthy
      rw [hc]
      cases l with
      | nil => exact absurd rfl hl
      | cons a t => rfl
    unfold HyperionEnhanced.get_all_pools
    split
    · simp [hc]
    · simp only [ht, if_true]
      simp [hc]
  · intro s now force api h
    unfold HyperionEnhanced.get_all_pools at h
    split at h
    · simp at h
    · cases api with
      | ok raw => simp at h
      | error e =>
        refine ⟨rfl, ?_⟩
        cases hb : HyperionEnhanced.cache_truthy s with
        | false => rfl
        | true => rw [hb, if_pos rfl] at h; simp at h
  · intro s now force l hc hl
    have ht : BluefinEnhanced.cache_truthy s = true := by
      unfold BluefinEnhanced.cache_truthy
      rw [hc]
      cases l with
      | nil => exact absurd rfl hl
      | cons a t => rfl
    unfold BluefinEnhanced.get_all_pools
    split
    · simp [hc]
    · simp only [ht, if_true]
      simp [hc]
  · intro s now force api h
    unfold BluefinEnhanced.get_all_pools at h
    split at h
    · simp at h
    · cases api with
      | ok raw => simp at h
      | error e =>
        refine ⟨rfl, ?_⟩
        cases hb : BluefinEnhanced.cache_truthy s with
        | false => rfl
        | true => rw [hb, if_pos rfl] at h; simp at h

end DefiApyBot

namespace DefiApyBot

/-- Witness for C2: a stale (timestamp 0, queried at time 100) nonempty
Hyperion/Bluefin cache is served on upstream failure; the error propagates
from the initial (cache-less) state. -/
theorem c2_stale_cache_fallback_witness :
    (HyperionEnhanced.get_all_pools
        ⟨some [{ id := "p1", tvlUSD := 1, dailyVolumeUSD := 1, feesUSD := 1, feeAPR := 1,
                 farmAPR := 0, token1 := "a", token2 := "b", feeRate := 2500,
                 token_a := "APT", token_b := "USDC", fee_tier_display := "0.25%",
                 fee_tier_value := 2500, total_apr := 1, has_farm := false,
                 apr_change := "0" }], 0⟩ 100 false (.error ())).result
      = .ok [{ id := "p1", tvlUSD := 1, dailyVolumeUSD := 1, feesUSD := 1, feeAPR := 1,
               farmAPR := 0, token1 := "a", token2 := "b", feeRate := 2500,
               token_a := "APT", token_b := "USDC", fee_tier_display := "0.25%",
               fee_tier_value := 2500, total_apr := 1, has_farm := false,
               apr_change := "0" }]
    ∧ HyperionEnhanced.cache_truthy HyperionEnhanced.State.init = false
    ∧ (BluefinEnhanced.get_all_pools
        ⟨some [{ pool_address := "q1", token_a := "A", token_b := "B", tvlUSD := 1,
                 dailyVolumeUSD := 1, feesUSD := 1, fee_tier_display := "0.25%",
                 fee_tier_value := 2500, feeAPR := 1, farmAPR := 0, total_apr := 1,
                 has_farm := false }], 0⟩ 100 false (.error ())).result
      = .ok [{ pool_address := "q1", token_a := "A", token_b := "B", tvlUSD := 1,
               dailyVolumeUSD := 1, feesUSD := 1, fee_tier_display := "0.25%",
               fee_tier_value := 2500, feeAPR := 1, farmAPR := 0, total_apr := 1,
               has_farm := false }]
    ∧ BluefinEnhanced.cache_truthy BluefinEnhanced.State.init = false :=
  ⟨c2_stale_cache_fallback.1 _ 100 false _ rfl (by simp),
   (c2_stale_cache_fallback.2.1 HyperionEnhanced.State.init 0 false (.error ()) rfl).2,
   c2_stale_cache_fallback.2.2.1 _ 100 false _ rfl (by simp),
   (c2_stale_cache_fallback.2.2.2 BluefinEnhanced.State.init 0 false (.error ()) rfl).2⟩

/-- Counterexample to C3: after a successful fetch whose enriched result is
the EMPTY list, a second non-forced call 30 seconds later (well inside the
60-second TTL) issues a second upstream request — two calls, two requests. -/
theorem c3_ttl_counterexample :
    (HyperionEnhanced.get_all_pools HyperionEnhanced.State.init 0 false (.ok [])).api_called
        = true
    ∧ (HyperionEnhanced.get_all_pools HyperionEnhanced.State.init 0 false (.ok [])).result
        = .ok []
    ∧ (30 : ℚ)
        - (HyperionEnhanced.get_all_pools HyperionEnhanced.State.init 0 false
            (.ok [])).state.cache_timestamp < HyperionEnhanced.CACHE_TTL
    ∧ (HyperionEnhanced.get_all_pools
        (HyperionEnhanced.get_all_pools HyperionEnhanced.State.init 0 false (.ok [])).state
        30 false (.ok [])).api_called = true := by
  refine ⟨rfl, rfl, ?_, rfl⟩
  show (30 : ℚ) - 0 < 60
  norm_num

/-- C3 (amended): after a call that issued the upstream request and fetched a
NONEMPTY enriched list at time `t1`, any non-forced call at a time `t2` with
`t2 - t1 < 60` issues no upstream request and is answered from cache (so the
two calls issue one request in total); and every call with
`force_refresh = true` issues an upstream request regardless of cache age.
The nonemptiness proviso is forced by the counterexample: an empty fetched
list is stored as a falsy cache and is re-fetched (see C10). -/
theorem c3_ttl_single_upstream_call :
    (∀ (s : HyperionEnhanced.State) (t1 t2 : ℚ) (f1 : Bool)
        (raw : List HyperionEnhanced.PoolStat)
        (u2 : Except Unit (List HyperionEnhanced.PoolStat)),
        (HyperionEnhanced.get_all_pools s t1 f1 (.ok raw)).api_called = true →
        (HyperionEnhanced.get_all_pools s t1 f1 (.ok raw)).result ≠ .ok [] →
        t2 - t1 < 60 →
        (HyperionEnhanced.get_all_pools
            (HyperionEnhanced.get_all_pools s t1 f1 (.ok raw)).state t2 false u2).api_called
          = false
        ∧ (HyperionEnhanced.get_all_pools
            (HyperionEnhanced.get_all_pools s t1 f1 (.ok raw)).state t2 false u2).result
          = (HyperionEnhanced.get_all_pools s t1 f1 (.ok raw)).result)
    ∧ (∀ (s : HyperionEnhanced.State) (now : ℚ)
        (api : Except Unit (List HyperionEnhanced.PoolStat)),
        (HyperionEnhanced.get_all_pools s now true api).api_called = true) := by
  constructor
  · intro s t1 t2 f1 raw u2 hreq hne httl
    rw [hyperion_fetch_shape s t1 f1 raw hreq] at hne ⊢
    dsimp only at hne ⊢
    have hl : (raw.filter (fun p =>
        decide (100000 ≤ p.tvlUSD) && decide (50000 ≤ p.dailyVolumeUSD))).map
        HyperionEnhanced.enrich_pool ≠ [] := by
      intro h
      exact hne (by rw [h])
    rw [hyperion_cache_hit _ t1 t2 u2 hl httl]
    exact ⟨rfl, rfl⟩
  · intro s now api
    unfold HyperionEnhanced.get_all_pools
    rw [if_neg (by simp)]
    cases api with
    | ok raw => rfl
    | error e =>
      dsimp only
      split <;> rfl


end DefiApyBot

namespace DefiApyBot

/-- Witness for C3: from the empty state, a fetch at time 0 returning one
active raw pool stores a nonempty cache; a second call at time 30 is served
from it without an upstream request, and a forced call always issues one. -/
theorem c3_ttl_single_upstream_call_witness :
    (HyperionEnhanced.get_all_pools
        (HyperionEnhanced.get_all_pools HyperionEnhanced.State.init 0 false
          (.ok [{ id := "p1", tvlUSD := 200000, dailyVolumeUSD := 60000, feesUSD := 1,
                  feeAPR := 1, farmAPR := 0, token1 := "a", token2 := "b",
                  feeRate := 2500 }])).state 30 false (.error ())).api_called = false
    ∧ (HyperionEnhanced.get_all_pools
        (HyperionEnhanced.get_all_pools HyperionEnhanced.State.init 0 false
          (.ok [{ id := "p1", tvlUSD := 200000, dailyVolumeUSD := 60000, feesUSD := 1,
                  feeAPR := 1, farmAPR := 0, token1 := "a", token2 := "b",
                  feeRate := 2500 }])).state 30 false (.error ())).result
      = (HyperionEnhanced.get_all_pools HyperionEnhanced.State.init 0 false
          (.ok [{ id := "p1", tvlUSD := 200000, dailyVolumeUSD := 60000, feesUSD := 1,
                  feeAPR := 1, farmAPR := 0, token1 := "a", token2 := "b",
                  feeRate := 2500 }])).result
    ∧ (HyperionEnhanced.get_all_pools HyperionEnhanced.State.init 5 true
        (.error ())).api_called = true := by
  refine ⟨?_, ?_, c3_ttl_single_upstream_call.2 HyperionEnhanced.State.init 5 (.error ())⟩
  · exact (c3_ttl_single_upstream_call.1 HyperionEnhanced.State.init 0 30 false _ _
      rfl (by simp [HyperionEnhanced.get_all_pools, HyperionEnhanced.State.init,
        HyperionEnhanced.cache_truthy]; norm_num) (by norm_num)).1
  · exact (c3_ttl_single_upstream_call.1 HyperionEnhanced.State.init 0 30 false _ _
      rfl (by simp [HyperionEnhanced.get_all_pools, HyperionEnhanced.State.init,
        HyperionEnhanced.cache_truthy]; norm_num) (by norm_num)).2

end DefiApyBot

namespace DefiApyBot

/-- C10: a successful fetch that stores an EMPTY enriched list behaves like an
absent cache — a later call within the TTL and without `force_refresh` issues
a new upstream request, and a failure of that request propagates instead of
the cached empty list being returned.  Holds for both adapters. -/
theorem c10_empty_cache_refetched :
    (∀ (s : HyperionEnhanced.State) (t1 t2 : ℚ) (f1 : Bool)
        (raw : List HyperionEnhanced.PoolStat)
        (u2 : Except Unit (List HyperionEnhanced.PoolStat)),
        (HyperionEnhanced.get_all_pools s t1 f1 (.ok raw)).api_called = true →
        (HyperionEnhanced.get_all_pools s t1 f1 (.ok raw)).result = .ok [] →
        t2 - t1 < 60 →
        (HyperionEnhanced.get_all_pools
            (HyperionEnhanced.get_all_pools s t1 f1 (.ok raw)).state t2 false u2).api_called
          = true
        ∧ (HyperionEnhanced.get_all_pools
            (HyperionEnhanced.get_all_pools s t1 f1 (.ok raw)).state t2 false
            (.error ())).result = .error ())
    ∧ (∀ (s : BluefinEnhanced.State) (t1 t2 : ℚ) (f1 : Bool)
        (raw : List BluefinEnhanced.RawPool)
        (u2 : Except Unit (List BluefinEnhanced.RawPool)),
        (BluefinEnhanced.get_all_pools s t1 f1 (.ok raw)).api_called = true →
        (BluefinEnhanced.get_all_pools s t1 f1 (.ok raw)).result = .ok [] →
        t2 - t1 < 60 →
        (BluefinEnhanced.get_all_pools
            (BluefinEnhanced.get_all_pools s t1 f1 (.ok raw)).state t2 false u2).api_called
          = true
        ∧ (BluefinEnhanced.get_all_pools
            (BluefinEnhanced.get_all_pools s t1 f1 (.ok raw)).state t2 false
            (.error ())).result = .error ()) := by
  constructor
  · intro s t1 t2 f1 raw u2 hreq hres httl
    rw [hyperion_fetch_shape s t1 f1 raw hreq] at hres ⊢
    dsimp only at hres ⊢
    have hE : (raw.filter (fun p =>
        decide (100000 ≤ p.tvlUSD) && decide (50000 ≤ p.dailyVolumeUSD))).map
        HyperionEnhanced.enrich_pool = [] := by simpa using hres
    rw [hE]
    exact ⟨(hyperion_fetch_on_empty_cache t1 t2 u2).1,
           (hyperion_fetch_on_empty_cache t1 t2 u2).2⟩
  · intro s t1 t2 f1 raw u2 hreq hres httl
    rw [bluefin_fetch_shape s t1 f1 raw hreq] at hres ⊢
    dsimp only at hres ⊢
    have hE : (raw.filter (fun p =>
        decide (0 < p.tvlUSD) && decide (0 < p.volume24h))).map
        BluefinEnhanced.enrich_pool = [] := by simpa using hres
    rw [hE]
    exact ⟨(bluefin_fetch_on_empty_cache t1 t2 u2).1,
           (bluefin_fetch_on_empty_cache t1 t2 u2).2⟩

/-- Witness for C10: a fetch returning no raw pools at time 0 stores an empty
cache; a call at time 30 issues a new request and propagates a failure. -/
theorem c10_empty_cache_refetched_witness :
    ((HyperionEnhanced.get_all_pools
        (HyperionEnhanced.get_all_pools HyperionEnhanced.State.init 0 false
          (.ok [])).state 30 false (.error ())).api_called = true
      ∧ (HyperionEnhanced.get_all_pools
          (HyperionEnhanced.get_all_pools HyperionEnhanced.State.init 0 false
            (.ok [])).state 30 false (.error ())).result = .error ())
    ∧ ((BluefinEnhanced.get_all_pools
        (BluefinEnhanced.get_all_pools BluefinEnhanced.State.init 0 false
          (.ok [])).state 30 false (.error ())).api_called = true
      ∧ (BluefinEnhanced.get_all_pools
          (BluefinEnhanced.get_all_pools BluefinEnhanced.State.init 0 false
            (.ok [])).state 30 false (.error ())).result = .error ()) :=
  ⟨c10_empty_cache_refetched.1 HyperionEnhanced.State.init 0 30 false [] (.error ())
      rfl rfl (by norm_num),
   c10_empty_cache_refetched.2 BluefinEnhanced.State.init 0 30 false [] (.error ())
      rfl rfl (by norm_num)⟩

end DefiApyBot

namespace DefiApyBot

/-! ## Claim C8 (filter pipeline volume floor) -/

/-- Peeling the `limit` truncation step of `filter_pools`. -/
theorem mem_of_mem_ite_take {α : Type} {c : Prop} [Decidable c] {l : List α} {n : Nat}
    {x : α} (h : x ∈ if c then l.take n else l) : x ∈ l := by
  split at h
  · exact List.take_subset n l h
  · exact h

/-- Peeling the fee-tier step of `filter_pools` (skipped on an empty,
falsy tier list). -/
theorem mem_of_mem_ite_filter {α : Type} {c : Prop} [Decidable c] {l : List α}
    {f : α → Bool} {x : α} (h : x ∈ if c then l else l.filter f) : x ∈ l := by
  split at h
  · exact h
  · exact List.mem_of_mem_filter h

/-- Counterexample to C8: a pool with TVL $200,000 (above the TVL floor,
positive) and 24h volume $0 is discarded by Hyperion `filter_pools` even
though the caller supplied no volume floor — the source applies a hard-coded
$50,000 volume floor unconditionally (it has no volume parameter at all). -/
theorem c8_volume_floor_counterexample :
    HyperionEnhanced.filter_pools
        [{ id := "p1", tvlUSD := 200000, dailyVolumeUSD := 0, feesUSD := 1, feeAPR := 1,
           farmAPR := 0, token1 := "a", token2 := "b", feeRate := 2500,
           token_a := "APT", token_b := "USDC", fee_tier_display := "0.25%",
           fee_tier_value := 2500, total_apr := 1, has_farm := false,
           apr_change := "0" }] 100000 none none "tvl" none = []
      ∧ (100000 : ℚ)
        ≤ ({ id := "p1", tvlUSD := 200000, dailyVolumeUSD := 0, feesUSD := 1, feeAPR := 1,
             farmAPR := 0, token1 := "a", token2 := "b", feeRate := 2500,
             token_a := "APT", token_b := "USDC", fee_tier_display := "0.25%",
             fee_tier_value := 2500, total_apr := 1, has_farm := false,
             apr_change := "0" } : HyperionEnhanced.EnrichedPool).tvlUSD := by
  constructor
  · simp only [HyperionEnhanced.filter_pools]
    norm_num
  · norm_num

/-- C8 (amended): the volume floor is NOT caller-optional.  Hyperion
`filter_pools` has no volume parameter and unconditionally drops every record
with 24h volume below $50,000; Bluefin `filter_pools` drops every record
below its `min_volume` parameter, whose Python default is $50,000 — so a
caller that supplies no volume floor still gets the $50,000 floor applied. -/
theorem c8_volume_floor_always_applied :
    (∀ (pools : List HyperionEnhanced.EnrichedPool) (min_tvl : ℚ)
        (fee_tiers : Option (List Int)) (has_farm : Option Bool)
        (sort_by : String) (limit : Option Nat)
        (p : HyperionEnhanced.EnrichedPool),
        p ∈ HyperionEnhanced.filter_pools pools min_tvl fee_tiers has_farm sort_by limit →
        50000 ≤ p.dailyVolumeUSD)
    ∧ (∀ (pools : List BluefinEnhanced.EnrichedPool) (min_tvl min_volume : ℚ)
        (fee_tiers : Option (List Int)) (has_farm : Option Bool)
        (sort_by : String) (limit : Option Nat)
        (p : BluefinEnhanced.EnrichedPool),
        p ∈ BluefinEnhanced.filter_pools pools min_tvl min_volume fee_tiers has_farm
          sort_by limit →
        min_volume ≤ p.dailyVolumeUSD) := by
  constructor
  · intro pools min_tvl ft hf sb lim p hp
    rcases lim with _ | n <;> rcases hf with _ | b <;> rcases ft with _ | fts <;>
      simp only [HyperionEnhanced.filter_pools] at hp
    · exact of_decide_eq_true (List.mem_filter.mp (List.mem_of_mem_filter
        (List.mem_mergeSort.mp hp))).2
    · exact of_decide_eq_true (List.mem_filter.mp (List.mem_of_mem_filter
        (mem_of_mem_ite_filter (List.mem_mergeSort.mp hp)))).2
    · exact of_decide_eq_true (List.mem_filter.mp (List.mem_of_mem_filter
        (List.mem_of_mem_filter (List.mem_mergeSort.mp hp)))).2
    · exact of_decide_eq_true (List.mem_filter.mp (List.mem_of_mem_filter
        (mem_of_mem_ite_filter (List.mem_of_mem_filter (List.mem_mergeSort.mp hp))))).2
    · exact of_decide_eq_true (List.mem_filter.mp (List.mem_of_mem_filter
        (List.mem_mergeSort.mp (mem_of_mem_ite_take hp)))).2
    · exact of_decide_eq_true (List.mem_filter.mp (List.mem_of_mem_filter
        (mem_of_mem_ite_filter (List.mem_mergeSort.mp (mem_of_mem_ite_take hp))))).2
    · exact of_decide_eq_true (List.mem_filter.mp (List.mem_of_mem_filter
        (List.mem_of_mem_filter (List.mem_mergeSort.mp (mem_of_mem_ite_take hp))))).2
    · exact of_decide_eq_true (List.mem_filter.mp (List.mem_of_mem_filter
        (mem_of_mem_ite_filter (List.mem_of_mem_filter
          (List.mem_mergeSort.mp (mem_of_mem_ite_take hp)))))).2
  · intro pools min_tvl min_volume ft hf sb lim p hp
    rcases lim with _ | n <;> rcases hf with _ | b <;> rcases ft with _ | fts <;>
      simp only [BluefinEnhanced.filter_pools] at hp
    · exact of_decide_eq_true (List.mem_filter.mp (List.mem_of_mem_filter
        (List.mem_mergeSort.mp hp))).2
    · exact of_decide_eq_true (List.mem_filter.mp (List.mem_of_mem_filter
        (mem_of_mem_ite_filter (List.mem_mergeSort.mp hp)))).2
    · exact of_decide_eq_true (List.mem_filter.mp (List.mem_of_mem_filter
        (List.mem_of_mem_filter (List.mem_mergeSort.mp hp)))).2
    · exact of_decide_eq_true (List.mem_filter.mp (List.mem_of_mem_filter
        (mem_of_mem_ite_filter (List.mem_of_mem_filter (List.mem_mergeSort.mp hp))))).2
    · exact of_decide_eq_true (List.mem_filter.mp (List.mem_of_mem_filter
        (List.mem_mergeSort.mp (mem_of_mem_ite_take hp)))).2
    · exact of_decide_eq_true (List.mem_filter.mp (List.mem_of_mem_filter
        (mem_of_mem_ite_filter (List.mem_mergeSort.mp (mem_of_mem_ite_take hp))))).2
    · exact of_decide_eq_true (List.mem_filter.mp (List.mem_of_mem_filter
        (List.mem_of_mem_filter (List.mem_mergeSort.mp (mem_of_mem_ite_take hp))))).2
    · exact of_decide_eq_true (List.mem_filter.mp (List.mem_of_mem_filter
        (mem_of_mem_ite_filter (List.mem_of_mem_filter
          (List.mem_mergeSort.mp (mem_of_mem_ite_take hp)))))).2

/-- Witness for C8: a pool with volume $60,000 passes Hyperion `filter_pools`
(TVL floor 0, no optional filters), and the theorem yields its volume bound;
likewise for Bluefin with `min_volume = 50000` (the Python default). -/
theorem c8_volume_floor_always_applied_witness :
    (50000 : ℚ)
      ≤ ({ id := "p1", tvlUSD := 200000, dailyVolumeUSD := 60000, feesUSD := 1,
           feeAPR := 1, farmAPR := 0, token1 := "a", token2 := "b", feeRate := 2500,
           token_a := "APT", token_b := "USDC", fee_tier_display := "0.25%",
           fee_tier_value := 2500, total_apr := 1, has_farm := false,
           apr_change := "0" } : HyperionEnhanced.EnrichedPool).dailyVolumeUSD
    ∧ (50000 : ℚ)
      ≤ ({ pool_address := "q1", token_a := "A", token_b := "B", tvlUSD := 200000,
           dailyVolumeUSD := 60000, feesUSD := 1, fee_tier_display := "0.25%",
           fee_tier_value := 2500, feeAPR := 1, farmAPR := 0, total_apr := 1,
           has_farm := false } : BluefinEnhanced.EnrichedPool).dailyVolumeUSD := by
  constructor
  · refine c8_volume_floor_always_applied.1
      [{ id := "p1", tvlUSD := 200000, dailyVolumeUSD := 60000, feesUSD := 1,
         feeAPR := 1, farmAPR := 0, token1 := "a", token2 := "b", feeRate := 2500,
         token_a := "APT", token_b := "USDC", fee_tier_display := "0.25%",
         fee_tier_value := 2500, total_apr := 1, has_farm := false,
         apr_change := "0" }] 0 none none "tvl" none _ ?_
    simp only [HyperionEnhanced.filter_pools]
    rw [List.mem_mergeSort]
    simp
    norm_num
  · refine c8_volume_floor_always_applied.2
      [{ pool_address := "q1", token_a := "A", token_b := "B", tvlUSD := 200000,
         dailyVolumeUSD := 60000, feesUSD := 1, fee_tier_display := "0.25%",
         fee_tier_value := 2500, feeAPR := 1, farmAPR := 0, total_apr := 1,
         has_farm := false }] 0 50000 none none "tvl" none _ ?_
    simp only [BluefinEnhanced.filter_pools]
    rw [List.mem_mergeSort]
    simp
    norm_num

end DefiApyBot

namespace DefiApyBot

/-! ## Claim C4 (pattern tier of the resolvers) -/

/-- If the raw identifier ends with `"UsdcCoin"`, then a case-insensitive
literal suffix pattern whose lower-cased body is suffix-incompatible with
`"usdccoin"` cannot match it. -/
theorem re_search_ci_false_of_UsdcCoin (pat : String) {s : String}
    (hs : "UsdcCoin".data <:+ s.data)
    (h1 : ¬ (pat.data.map Char.toLower <:+ "usdccoin".data))
    (h2 : ¬ ("usdccoin".data <:+ pat.data.map Char.toLower)) :
    BotTokenRegistry.re_search_ci pat s = false := by
  have hlow : "usdccoin".data <:+ s.data.map Char.toLower := by
    have h := List.IsSuffix.map Char.toLower hs
    have he : "UsdcCoin".data.map Char.toLower = "usdccoin".data := by decide
    rwa [he] at h
  unfold BotTokenRegistry.re_search_ci
  rw [Bool.eq_false_iff]
  intro hc
  rw [List.isSuffixOf_iff_suffix] at hc
  exact not_suffix_of_suffix hlow h2 h1 hc

/-- The `UsdcCoin$` pattern (matched case-insensitively) matches every
identifier ending with `"UsdcCoin"`. -/
theorem re_search_ci_true_of_UsdcCoin {s : String}
    (hs : "UsdcCoin".data <:+ s.data) :
    BotTokenRegistry.re_search_ci "UsdcCoin" s = true := by
  have hlow : "usdccoin".data <:+ s.data.map Char.toLower := by
    have h := List.IsSuffix.map Char.toLower hs
    have he : "UsdcCoin".data.map Char.toLower = "usdccoin".data := by decide
    rwa [he] at h
  simp only [BotTokenRegistry.re_search_ci, List.isSuffixOf_iff_suffix]
  have he : "UsdcCoin".data.map Char.toLower = "usdccoin".data := by decide
  rw [he]
  exact hlow

/-- Case-sensitive analogue for `token_parser.py`: a literal suffix pattern
suffix-incompatible with `"UsdcCoin"` cannot match an identifier ending with
`"UsdcCoin"`. -/
theorem re_search_cs_false_of_UsdcCoin (pat : String) {s : String}
    (hs : "UsdcCoin".data <:+ s.data)
    (h1 : ¬ (pat.data <:+ "UsdcCoin".data)) (h2 : ¬ ("UsdcCoin".data <:+ pat.data)) :
    TokenParser.re_search_cs pat s = false := by
  unfold TokenParser.re_search_cs
  rw [Bool.eq_false_iff]
  intro hc
  rw [List.isSuffixOf_iff_suffix] at hc
  exact not_suffix_of_suffix hs h2 h1 hc

/-- The case-sensitive `UsdcCoin$` pattern matches every identifier ending
with `"UsdcCoin"`. -/
theorem re_search_cs_true_of_UsdcCoin {s : String}
    (hs : "UsdcCoin".data <:+ s.data) :
    TokenParser.re_search_cs "UsdcCoin" s = true := by
  simp only [TokenParser.re_search_cs, List.isSuffixOf_iff_suffix]
  exact hs

/-- Counterexample to C4: the unseen identifier
`0xabc::celer_coin_manager::UsdcCoin` (not a seed-registry key, ending in
`UsdcCoin`) is resolved by the bot resolver
(`bot/utils/token_registry.get_token_symbol`) via the pattern tier to plain
`"USDC"`, not to the claimed bridge-prefixed `"ceUSDC"`. -/
theorem c4_pattern_tier_counterexample :
    BotTokenRegistry.TOKEN_REGISTRY.find?
        (fun kv => kv.1 = pyStrip (pyLower "0xabc::celer_coin_manager::UsdcCoin")) = none
    ∧ BotTokenRegistry.TOKEN_REGISTRY.find?
        (fun kv => pyStrip (pyLower kv.1)
          = pyStrip (pyLower "0xabc::celer_coin_manager::UsdcCoin")) = none
    ∧ pyEndsWith "0xabc::celer_coin_manager::UsdcCoin" "UsdcCoin" = true
    ∧ (BotTokenRegistry.get_token_symbol ⟨[]⟩ "0xabc::celer_coin_manager::UsdcCoin").1
        = "USDC"
    ∧ ("USDC" : String) ≠ "ceUSDC" :=
  ⟨by decide, by decide, rfl, rfl, by decide⟩

/-- C4 (amended): for every raw identifier that is not in the seed registry
and ends with `UsdcCoin`, the bot resolver
(`bot/utils/token_registry.get_token_symbol`, the one the adapters call)
returns `"USDC"` via the pattern tier (no log, no state change), NOT the
bridge-prefixed `"ceUSDC"`; the `ceUSDC` mapping only exists in the separate
`token_parser.py` resolver, which does return `"ceUSDC"` for such
identifiers.  In both resolvers the pattern tier precedes the structural
heuristic: whenever any pattern matches, the first matching pattern's symbol
is returned and the heuristic is never consulted. -/
theorem c4_pattern_tier :
    (∀ (st : BotTokenRegistry.TRState) (addr : String),
        BotTokenRegistry.TOKEN_REGISTRY.find?
            (fun kv => kv.1 = pyStrip (pyLower addr)) = none →
        BotTokenRegistry.TOKEN_REGISTRY.find?
            (fun kv => pyStrip (pyLower kv.1) = pyStrip (pyLower addr)) = none →
        "UsdcCoin".data <:+ addr.data →
        BotTokenRegistry.get_token_symbol st addr = ("USDC", st, 0))
    ∧ (∀ (st : BotTokenRegistry.TRState) (addr : String) (pat sym : String),
        BotTokenRegistry.TOKEN_REGISTRY.find?
            (fun kv => kv.1 = pyStrip (pyLower addr)) = none →
        BotTokenRegistry.TOKEN_REGISTRY.find?
            (fun kv => pyStrip (pyLower kv.1) = pyStrip (pyLower addr)) = none →
        BotTokenRegistry.TOKEN_PATTERNS.find?
            (fun ps => BotTokenRegistry.re_search_ci ps.1 addr) = some (pat, sym) →
        BotTokenRegistry.get_token_symbol st addr = (sym, st, 0))
    ∧ (∀ (addr : String) (use_cache : Bool),
        TokenRegistryRoot.TOKEN_REGISTRY.find? (fun kv => kv.1 = addr) = none →
        "UsdcCoin".data <:+ addr.data →
        (TokenParser.get_token_symbol TokenRegistryRoot.TOKEN_REGISTRY addr
          use_cache).1 = "ceUSDC") := by
  refine ⟨?_, ?_, ?_⟩
  · intro st addr hdir hloop hsuf
    have hne : addr ≠ "" := by
      intro h
      rw [h] at hsuf
      exact absurd hsuf (by decide)
    have hf1 : BotTokenRegistry.re_search_ci "::aptos_coin::AptosCoin" addr = false :=
      re_search_ci_false_of_UsdcCoin _ hsuf (by decide) (by decide)
    have hf2 : BotTokenRegistry.re_search_ci "::asset::USDC" addr = false :=
      re_search_ci_false_of_UsdcCoin _ hsuf (by decide) (by decide)
    have hf3 : BotTokenRegistry.re_search_ci "::asset::USDT" addr = false :=
      re_search_ci_false_of_UsdcCoin _ hsuf (by decide) (by decide)
    have hf4 : BotTokenRegistry.re_search_ci "::asset::WETH" addr = false :=
      re_search_ci_false_of_UsdcCoin _ hsuf (by decide) (by decide)
    have hf5 : BotTokenRegistry.re_search_ci "::asset::WBTC" addr = false :=
      re_search_ci_false_of_UsdcCoin _ hsuf (by decide) (by decide)
    have hf6 : BotTokenRegistry.re_search_ci "::asset::DAI" addr = false :=
      re_search_ci_false_of_UsdcCoin _ hsuf (by decide) (by decide)
    have hf7 : BotTokenRegistry.re_search_ci "UsdcCoin" addr = true :=
      re_search_ci_true_of_UsdcCoin hsuf
    unfold BotTokenRegistry.get_token_symbol
    rw [if_neg hne]
    dsimp only
    rw [hdir]
    dsimp only
    rw [hloop]
    dsimp only
    simp only [BotTokenRegistry.TOKEN_PATTERNS, List.find?, hf1, hf2, hf3, hf4, hf5,
      hf6, hf7]
  · intro st addr pat sym hdir hloop hfind
    have hne : addr ≠ "" := by
      intro h
      rw [h] at hfind
      have hnone : BotTokenRegistry.TOKEN_PATTERNS.find?
          (fun ps => BotTokenRegistry.re_search_ci ps.1 "") = none := by decide
      rw [hnone] at hfind
      cases hfind
    unfold BotTokenRegistry.get_token_symbol
    rw [if_neg hne]
    dsimp only
    rw [hdir]
    dsimp only
    rw [hloop]
    dsimp only
    rw [hfind]
  · intro addr use_cache hreg hsuf
    have hne : addr ≠ "" := by
      intro h
      rw [h] at hsuf
      exact absurd hsuf (by decide)
    have hf1 : TokenParser.re_search_cs "::aptos_coin::AptosCoin" addr = false :=
      re_search_cs_false_of_UsdcCoin _ hsuf (by decide) (by decide)
    have hf2 : TokenParser.re_search_cs "::asset::USDC" addr = false :=
      re_search_cs_false_of_UsdcCoin _ hsuf (by decide) (by decide)
    have hf3 : TokenParser.re_search_cs "::asset::USDT" addr = false :=
      re_search_cs_false_of_UsdcCoin _ hsuf (by decide) (by decide)
    have hf4 : TokenParser.re_search_cs "::asset::WETH" addr = false :=
      re_search_cs_false_of_UsdcCoin _ hsuf (by decide) (by decide)
    have hf5 : TokenParser.re_search_cs "::asset::WBTC" addr = false :=
      re_search_cs_false_of_UsdcCoin _ hsuf (by decide) (by decide)
    have hf6 : TokenParser.re_search_cs "::asset::DAI" addr = false :=
      re_search_cs_false_of_UsdcCoin _ hsuf (by decide) (by decide)
    have hf7 : TokenParser.re_search_cs "UsdcCoin" addr = true :=
      re_search_cs_true_of_UsdcCoin hsuf
    unfold TokenParser.get_token_symbol
    rw [if_neg hne]
    rw [hreg]
    dsimp only
    simp only [TokenParser.TOKEN_PATTERNS, List.find?, hf1, hf2, hf3, hf4, hf5, hf6, hf7]

/-- Witness for C4 at `0xabc::celer_coin_manager::UsdcCoin` (not in either
seed registry): the bot resolver yields `"USDC"`, pattern precedence yields
the first matching pattern's symbol, and the `token_parser` resolver yields
`"ceUSDC"`. -/
theorem c4_pattern_tier_witness :
    BotTokenRegistry.get_token_symbol ⟨[]⟩ "0xabc::celer_coin_manager::UsdcCoin"
        = ("USDC", ⟨[]⟩, 0)
    ∧ BotTokenRegistry.get_token_symbol ⟨[]⟩ "0xdef::coin::StakedAptos"
        = ("stAPT", ⟨[]⟩, 0)
    ∧ (TokenParser.get_token_symbol TokenRegistryRoot.TOKEN_REGISTRY
        "0xabc::celer_coin_manager::UsdcCoin" true).1 = "ceUSDC" :=
  ⟨c4_pattern_tier.1 ⟨[]⟩ "0xabc::celer_coin_manager::UsdcCoin"
      (by decide) (by decide) (by decide),
   c4_pattern_tier.2.1 ⟨[]⟩ "0xdef::coin::StakedAptos" "StakedAptos" "stAPT"
      (by decide) (by decide) (by decide),
   c4_pattern_tier.2.2 "0xabc::celer_coin_manager::UsdcCoin" true
      (by decide) (by decide)⟩

end DefiApyBot

namespace DefiApyBot

/-! ## Search-engine lemmas (shared by C6 and C7) -/

/-- Membership in `filter_pools` output implies the match predicate. -/
theorem pool_matches_of_mem_filter_pools {pools : List TokenSearch.Pool}
    {ta : String} {tb : Option String} {p : TokenSearch.Pool}
    (h : p ∈ TokenSearch.filter_pools pools ta tb) :
    TokenSearch.pool_matches ta tb p = true := by
  unfold TokenSearch.filter_pools at h
  rw [List.mem_mergeSort] at h
  exact (List.mem_filter.mp h).2

/-- `filter_pools` output is sorted descending by TVL. -/
theorem filter_pools_sorted (pools : List TokenSearch.Pool) (ta : String)
    (tb : Option String) :
    (TokenSearch.filter_pools pools ta tb).Pairwise fun x y => y.tvlUSD ≤ x.tvlUSD := by
  unfold TokenSearch.filter_pools
  have h := @List.sorted_mergeSort _
    (fun (x y : TokenSearch.Pool) => decide (y.tvlUSD ≤ x.tvlUSD))
    (fun a b c hab hbc => by
      simp only [decide_eq_true_eq] at hab hbc ⊢
      exact le_trans hbc hab)
    (fun a b => by
      simp only [Bool.or_eq_true, decide_eq_true_eq]
      exact le_total b.tvlUSD a.tvlUSD)
    (pools.filter (TokenSearch.pool_matches ta tb))
  exact h.imp fun hab => of_decide_eq_true hab

/-- Every blockchain result in a `run_search` output was produced by
`search_in_blockchain` on one of the registered chains. -/
theorem mem_blockchains_elim {ta : String} {tb : Option String} {q : String}
    {chains : List TokenSearch.ChainSource} {b : TokenSearch.BlockchainResult}
    (hb : b ∈ (TokenSearch.run_search ta tb q chains).blockchains) :
    ∃ ch : TokenSearch.ChainSource,
      TokenSearch.search_in_blockchain ch.chain_id ch.protocols ta tb = some b := by
  unfold TokenSearch.run_search at hb
  dsimp only at hb
  rw [List.mem_mergeSort, List.mem_filterMap] at hb
  obtain ⟨ch, -, hch⟩ := hb
  rcases hs : TokenSearch.search_in_blockchain ch.chain_id ch.protocols ta tb with _ | r
  · rw [hs] at hch
    cases hch
  · rw [hs] at hch
    dsimp only at hch
    split at hch
    · cases hch
      exact ⟨ch, hs⟩
    · cases hch

/-- Structure of a `search_in_blockchain` result: its counts and TVL are the
sums over its protocol results, and every protocol result carries the
filtered pool list with its own count/TVL aggregates. -/
theorem search_in_blockchain_fields {cid : String}
    {protos : List TokenSearch.ProtocolSource} {ta : String} {tb : Option String}
    {b : TokenSearch.BlockchainResult}
    (h : TokenSearch.search_in_blockchain cid protos ta tb = some b) :
    b.pool_count = (b.protocols.map fun pr => pr.pool_count).sum
    ∧ b.total_tvl = (b.protocols.map fun pr => pr.total_tvl).sum
    ∧ ∀ pr ∈ b.protocols, ∃ pools : List TokenSearch.Pool,
        pr.pools = TokenSearch.filter_pools pools ta tb
        ∧ pr.pool_count = pr.pools.length
        ∧ pr.total_tvl = (pr.pools.map fun p => p.tvlUSD).sum := by
  unfold TokenSearch.search_in_blockchain at h
  dsimp only at h
  split at h
  · cases h
  · cases h
    refine ⟨rfl, rfl, ?_⟩
    intro pr hpr
    rw [List.mem_filterMap] at hpr
    obtain ⟨pi, -, hpi⟩ := hpr
    rcases hf : pi.fetch with e | pools
    · rw [hf] at hpi
      cases hpi
    · rw [hf] at hpi
      dsimp only at hpi
      split at hpi
      · cases hpi
      · cases hpi
        exact ⟨pools, rfl, rfl, rfl⟩

/-- The aggregation invariants of a full `run_search` result. -/
theorem run_search_invariants (ta : String) (tb : Option String) (q : String)
    (chains : List TokenSearch.ChainSource) :
    (TokenSearch.run_search ta tb q chains).total_pools
      = ((TokenSearch.run_search ta tb q chains).blockchains.map
          fun b => b.pool_count).sum
    ∧ (TokenSearch.run_search ta tb q chains).blockchains.Pairwise
        (fun x y => y.total_tvl ≤ x.total_tvl)
    ∧ ∀ b ∈ (TokenSearch.run_search ta tb q chains).blockchains,
        b.pool_count = (b.protocols.map fun pr => pr.pool_count).sum
        ∧ b.total_tvl = (b.protocols.map fun pr => pr.total_tvl).sum
        ∧ ∀ pr ∈ b.protocols,
            pr.pool_count = pr.pools.length
            ∧ pr.total_tvl = (pr.pools.map fun p => p.tvlUSD).sum
            ∧ pr.pools.Pairwise (fun x y => y.tvlUSD ≤ x.tvlUSD) := by
  refine ⟨rfl, ?_, ?_⟩
  · have h := @List.sorted_mergeSort _
      (fun (x y : TokenSearch.BlockchainResult) => decide (y.total_tvl ≤ x.total_tvl))
      (fun a b c hab hbc => by
        simp only [decide_eq_true_eq] at hab hbc ⊢
        exact le_trans hbc hab)
      (fun a b => by
        simp only [Bool.or_eq_true, decide_eq_true_eq]
        exact le_total b.total_tvl a.total_tvl)
      (chains.filterMap fun ch =>
        match TokenSearch.search_in_blockchain ch.chain_id ch.protocols ta tb with
        | some chain_result =>
          if 0 < chain_result.pool_count then some chain_result else none
        | none => none)
    exact h.imp fun hab => of_decide_eq_true hab
  · intro b hb
    obtain ⟨ch, hch⟩ := mem_blockchains_elim hb
    obtain ⟨h1, h2, h3⟩ := search_in_blockchain_fields hch
    refine ⟨h1, h2, ?_⟩
    intro pr hpr
    obtain ⟨pools, hpools, hc, ht⟩ := h3 pr hpr
    refine ⟨hc, ht, ?_⟩
    rw [hpools]
    exact filter_pools_sorted pools ta tb

end DefiApyBot

namespace DefiApyBot

/-! ## Claims C6 and C7 (cross-chain search) -/

/-- C7: in every `TokenSearchResult` returned by `search_token`, the counts
and TVL at each level equal the sums over their children (protocol results
aggregate their matched pools, blockchain results aggregate their protocols,
`total_pools` sums the blockchains), the blockchains are sorted descending by
`total_tvl`, and the pools within each protocol are sorted descending by
TVL. -/
theorem c7_aggregation_invariants (chains : List TokenSearch.ChainSource)
    (q : String) (res : TokenSearch.TokenSearchResult)
    (h : TokenSearch.search_token q chains = .ok res) :
    res.total_pools = (res.blockchains.map fun b => b.pool_count).sum
    ∧ res.blockchains.Pairwise (fun x y => y.total_tvl ≤ x.total_tvl)
    ∧ ∀ b ∈ res.blockchains,
        b.pool_count = (b.protocols.map fun pr => pr.pool_count).sum
        ∧ b.total_tvl = (b.protocols.map fun pr => pr.total_tvl).sum
        ∧ ∀ pr ∈ b.protocols,
            pr.pool_count = pr.pools.length
            ∧ pr.total_tvl = (pr.pools.map fun p => p.tvlUSD).sum
            ∧ pr.pools.Pairwise (fun x y => y.tvlUSD ≤ x.tvlUSD) := by
  unfold TokenSearch.search_token at h
  dsimp only at h
  split at h
  · split at h
    · cases h
      exact run_search_invariants _ _ _ chains
    · cases h
  · cases h
    exact run_search_invariants _ _ _ chains

/-- Witness for C7: the search for `"APT"` over no registered chains returns
`ok ⟨"APT", 0, []⟩`, for which all aggregation invariants hold. -/
theorem c7_aggregation_invariants_witness :
    (⟨"APT", 0, []⟩ : TokenSearch.TokenSearchResult).total_pools
      = ((⟨"APT", 0, []⟩ : TokenSearch.TokenSearchResult).blockchains.map
          fun b => b.pool_count).sum
    ∧ (⟨"APT", 0, []⟩ : TokenSearch.TokenSearchResult).blockchains.Pairwise
        (fun x y => y.total_tvl ≤ x.total_tvl)
    ∧ ∀ b ∈ (⟨"APT", 0, []⟩ : TokenSearch.TokenSearchResult).blockchains,
        b.pool_count = (b.protocols.map fun pr => pr.pool_count).sum
        ∧ b.total_tvl = (b.protocols.map fun pr => pr.total_tvl).sum
        ∧ ∀ pr ∈ b.protocols,
            pr.pool_count = pr.pools.length
            ∧ pr.total_tvl = (pr.pools.map fun p => p.tvlUSD).sum
            ∧ pr.pools.Pairwise (fun x y => y.tvlUSD ≤ x.tvlUSD) :=
  c7_aggregation_invariants [] "APT" ⟨"APT", 0, []⟩ (by
    unfold TokenSearch.search_token
    dsimp only
    rw [show TokenSearch.normalize_query "APT" = "APT" from by decide]
    rw [show ("APT".data.contains '-') = false from by decide,
      if_neg Bool.false_ne_true]
    unfold TokenSearch.run_search
    simp [List.mergeSort_nil])

end DefiApyBot

namespace DefiApyBot

/-- C6: (i) every pool in the result of the pair query `"APT-USDT"` has,
case-insensitively, exactly the unordered symbol pair {APT, USDT};
(ii) the query `"APT/USDT"` normalizes to and yields the same result as
`"APT-USDT"` on every chain registry; (iii) a pair query whose normalized
form has more than two `-`-separated segments fails with the
`Invalid pair format` error. -/
theorem c6_pair_query :
    (∀ (chains : List TokenSearch.ChainSource) (res : TokenSearch.TokenSearchResult),
        TokenSearch.search_token "APT-USDT" chains = .ok res →
        ∀ b ∈ res.blockchains, ∀ pr ∈ b.protocols, ∀ p ∈ pr.pools,
          (pyUpper p.token_a = "APT" ∧ pyUpper p.token_b = "USDT")
          ∨ (pyUpper p.token_a = "USDT" ∧ pyUpper p.token_b = "APT"))
    ∧ (∀ chains : List TokenSearch.ChainSource,
        TokenSearch.search_token "APT/USDT" chains
          = TokenSearch.search_token "APT-USDT" chains)
    ∧ (∀ (q : String) (chains : List TokenSearch.ChainSource),
        2 < (pySplitChar '-' (TokenSearch.normalize_query q)).length →
        TokenSearch.search_token q chains = .error "Invalid pair format") := by
  refine ⟨?_, ?_, ?_⟩
  · intro chains res h b hb pr hpr p hp
    unfold TokenSearch.search_token at h
    dsimp only at h
    rw [show TokenSearch.normalize_query "APT-USDT" = "APT-USDT" from by decide,
      show ("APT-USDT".data.contains '-') = true from by decide,
      if_pos rfl,
      show pySplitChar '-' "APT-USDT" = ["APT", "USDT"] from by decide] at h
    dsimp only at h
    cases h
    obtain ⟨ch, hch⟩ := mem_blockchains_elim hb
    obtain ⟨-, -, h3⟩ := search_in_blockchain_fields hch
    obtain ⟨pools, hpools, -, -⟩ := h3 pr hpr
    rw [hpools] at hp
    have hm := pool_matches_of_mem_filter_pools hp
    unfold TokenSearch.pool_matches at hm
    dsimp only at hm
    rw [show (("USDT" : String) != "") = true from by decide, if_pos rfl] at hm
    simp only [Option.getD_some, Bool.or_eq_true, Bool.and_eq_true, beq_iff_eq] at hm
    exact hm
  · intro chains
    unfold TokenSearch.search_token
    rw [show TokenSearch.normalize_query "APT/USDT"
      = TokenSearch.normalize_query "APT-USDT" from by decide]
  · intro q chains hlen
    have hmem : '-' ∈ (TokenSearch.normalize_query q).data := by
      apply mem_of_splitOnSep_length
      have hlm : (pySplitChar '-' (TokenSearch.normalize_query q)).length
          = (splitOnSep '-' (TokenSearch.normalize_query q).data).length := by
        unfold pySplitChar
        rw [List.length_map]
      omega
    have hcont : (TokenSearch.normalize_query q).data.contains '-' = true := by
      exact List.elem_eq_true_of_mem hmem
    unfold TokenSearch.search_token
    dsimp only
    rw [hcont, if_pos rfl]
    revert hlen
    generalize pySplitChar '-' (TokenSearch.normalize_query q) = parts
    intro hlen
    rcases parts with _ | ⟨a, _ | ⟨c, _ | ⟨d, t⟩⟩⟩
    · simp only [List.length_nil] at hlen
      omega
    · simp only [List.length_cons, List.length_nil] at hlen
      omega
    · simp only [List.length_cons, List.length_nil] at hlen
      omega
    · rfl

end DefiApyBot

namespace DefiApyBot

/-- Witness for C6: on a registry with one Aptos protocol holding one
APT/USDT pool, the pair query `"APT-USDT"` succeeds and every returned pool
has the unordered symbol pair {APT, USDT}; normalization equivalence and the
malformed-pair error are exercised on concrete queries. -/
theorem c6_pair_query_witness :
    ((pyUpper "APT" = "APT" ∧ pyUpper "USDT" = "USDT")
      ∨ (pyUpper "APT" = "USDT" ∧ pyUpper "USDT" = "APT"))
    ∧ TokenSearch.search_token "APT/USDT" []
      = TokenSearch.search_token "APT-USDT" []
    ∧ TokenSearch.search_token "A-B-C" [] = .error "Invalid pair format" := by
  refine ⟨?_, c6_pair_query.2.1 [], c6_pair_query.2.2 "A-B-C" [] (by decide)⟩
  have hfp : TokenSearch.filter_pools [⟨"APT", "USDT", 1000, 10⟩] "APT" (some "USDT")
      = [⟨"APT", "USDT", 1000, 10⟩] := by
    unfold TokenSearch.filter_pools
    rw [show List.filter (TokenSearch.pool_matches "APT" (some "USDT"))
        [⟨"APT", "USDT", 1000, 10⟩] = [(⟨"APT", "USDT", 1000, 10⟩ : TokenSearch.Pool)]
      from by decide]
    exact List.mergeSort_singleton _
  have hsb : TokenSearch.search_in_blockchain "aptos"
      [⟨"hyperion", "Hyperion", "🌊", .ok [⟨"APT", "USDT", 1000, 10⟩]⟩]
      "APT" (some "USDT")
      = some ⟨"aptos", "Aptos", "🔷",
          ([(⟨"hyperion", "Hyperion", "🌊", 1,
              (([⟨"APT", "USDT", 1000, 10⟩] : List TokenSearch.Pool).map
                fun p => p.tvlUSD).sum,
              pyMaxD (([⟨"APT", "USDT", 1000, 10⟩] : List TokenSearch.Pool).map
                fun p => p.total_apr) 0,
              [⟨"APT", "USDT", 1000, 10⟩]⟩ : TokenSearch.ProtocolResult)].map
            fun pr => pr.pool_count).sum,
          ([(⟨"hyperion", "Hyperion", "🌊", 1,
              (([⟨"APT", "USDT", 1000, 10⟩] : List TokenSearch.Pool).map
                fun p => p.tvlUSD).sum,
              pyMaxD (([⟨"APT", "USDT", 1000, 10⟩] : List TokenSearch.Pool).map
                fun p => p.total_apr) 0,
              [⟨"APT", "USDT", 1000, 10⟩]⟩ : TokenSearch.ProtocolResult)].map
            fun pr => pr.total_tvl).sum,
          [⟨"hyperion", "Hyperion", "🌊", 1,
              (([⟨"APT", "USDT", 1000, 10⟩] : List TokenSearch.Pool).map
                fun p => p.tvlUSD).sum,
              pyMaxD (([⟨"APT", "USDT", 1000, 10⟩] : List TokenSearch.Pool).map
                fun p => p.total_apr) 0,
              [⟨"APT", "USDT", 1000, 10⟩]⟩],
          pyMaxD ([(⟨"hyperion", "Hyperion", "🌊", 1,
              (([⟨"APT", "USDT", 1000, 10⟩] : List TokenSearch.Pool).map
                fun p => p.tvlUSD).sum,
              pyMaxD (([⟨"APT", "USDT", 1000, 10⟩] : List TokenSearch.Pool).map
                fun p => p.total_apr) 0,
              [⟨"APT", "USDT", 1000, 10⟩]⟩ : TokenSearch.ProtocolResult)].map
            fun pr => pr.best_apr) 0⟩ := by
    unfold TokenSearch.search_in_blockchain
    simp only [List.filterMap_cons, List.filterMap_nil]
    rw [hfp]
    rfl
  have hres : TokenSearch.search_token "APT-USDT"
      [⟨"aptos", [⟨"hyperion", "Hyperion", "🌊", .ok [⟨"APT", "USDT", 1000, 10⟩]⟩]⟩]
      = .ok (TokenSearch.run_search "APT" (some "USDT") "APT-USDT"
          [⟨"aptos", [⟨"hyperion", "Hyperion", "🌊",
            .ok [⟨"APT", "USDT", 1000, 10⟩]⟩]⟩]) := by
    unfold TokenSearch.search_token
    dsimp only
    rw [show TokenSearch.normalize_query "APT-USDT" = "APT-USDT" from by decide,
      show ("APT-USDT".data.contains '-') = true from by decide, if_pos rfl,
      show pySplitChar '-' "APT-USDT" = ["APT", "USDT"] from by decide]
  have hblocks : (TokenSearch.run_search "APT" (some "USDT") "APT-USDT"
      [⟨"aptos", [⟨"hyperion", "Hyperion", "🌊",
        .ok [⟨"APT", "USDT", 1000, 10⟩]⟩]⟩]).blockchains
      = [⟨"aptos", "Aptos", "🔷",
          ([(⟨"hyperion", "Hyperion", "🌊", 1,
              (([⟨"APT", "USDT", 1000, 10⟩] : List TokenSearch.Pool).map
                fun p => p.tvlUSD).sum,
              pyMaxD (([⟨"APT", "USDT", 1000, 10⟩] : List TokenSearch.Pool).map
                fun p => p.total_apr) 0,
              [⟨"APT", "USDT", 1000, 10⟩]⟩ : TokenSearch.ProtocolResult)].map
            fun pr => pr.pool_count).sum,
          ([(⟨"hyperion", "Hyperion", "🌊", 1,
              (([⟨"APT", "USDT", 1000, 10⟩] : List TokenSearch.Pool).map
                fun p => p.tvlUSD).sum,
              pyMaxD (([⟨"APT", "USDT", 1000, 10⟩] : List TokenSearch.Pool).map
                fun p => p.total_apr) 0,
              [⟨"APT", "USDT", 1000, 10⟩]⟩ : TokenSearch.ProtocolResult)].map
            fun pr => pr.total_tvl).sum,
          [⟨"hyperion", "Hyperion", "🌊", 1,
              (([⟨"APT", "USDT", 1000, 10⟩] : List TokenSearch.Pool).map
                fun p => p.tvlUSD).sum,
              pyMaxD (([⟨"APT", "USDT", 1000, 10⟩] : List TokenSearch.Pool).map
                fun p => p.total_apr) 0,
              [⟨"APT", "USDT", 1000, 10⟩]⟩],
          pyMaxD ([(⟨"hyperion", "Hyperion", "🌊", 1,
              (([⟨"APT", "USDT", 1000, 10⟩] : List TokenSearch.Pool).map
                fun p => p.tvlUSD).sum,
              pyMaxD (([⟨"APT", "USDT", 1000, 10⟩] : List TokenSearch.Pool).map
                fun p => p.total_apr) 0,
              [⟨"APT", "USDT", 1000, 10⟩]⟩ : TokenSearch.ProtocolResult)].map
            fun pr => pr.best_apr) 0⟩] := by
    unfold TokenSearch.run_search
    dsimp only
    simp only [List.filterMap_cons, List.filterMap_nil]
    rw [hsb]
    dsimp only
    rw [if_pos (by decide)]
    exact List.mergeSort_singleton _
  have happ := c6_pair_query.1
    [⟨"aptos", [⟨"hyperion", "Hyperion", "🌊", .ok [⟨"APT", "USDT", 1000, 10⟩]⟩]⟩]
    _ hres
  rw [hblocks] at happ
  exact happ _ (List.mem_singleton.mpr rfl) _ (List.mem_singleton.mpr rfl)
    _ (List.mem_singleton.mpr rfl)

end DefiApyBot
